import Mathlib

/-!
A verification development for the plugin-interface generator and staged build
orchestrator of the `particle_sim` repository.

The Python build scripts are shallowly embedded as pure Lean functions:

* `build_scripts/common.py`   → environment-flag helpers, `getLibNames`;
* `build_scripts/A_generatePluginHeaders.py` → `pascalcase`, `emitPluginHeader`,
  `mkPluginInfo`, `emitInfosHeader`, `emitIdsHeader`;
* `build_scripts/B_compileNonPluginSourcesForPlugins.py` → `stageB`;
* `build_scripts/C_compilePluginSources.py` → `stageC`;
* `build_scripts/D_linkPlugins_dependsOn_BC.py` → `stageD`;
* `build.py` and `build_scripts/E_compileMainProgram_dependsOn_A.py` →
  `nocompileScan`, `buildPy`, `stageE`.

Filesystem reads (directory listings, descriptor contents, file existence) and
subprocess exit statuses are parameters of the embedded functions; each stage
returns the ordered trace of externally visible actions it performs (directory
deletions and creations, subprocess spawns, diagnostic prints) together with
the files left in its output directory and its termination status.

Core `String` operations implemented by well-founded recursion do not reduce
in the kernel, so Python string primitives (`upper`, `replace`, comparison,
`find`, `int()`) are embedded as structurally recursive functions over
character lists.
-/

namespace ParticleSim

/-! ## String utilities (models of the Python `str` primitives used) -/

/-- Lexicographic comparison of character lists by Unicode code point:
the ordering Python uses for `str` comparison and `list.sort()` of strings. -/
def charListLe : List Char → List Char → Bool
  | [], _ => true
  | _ :: _, [] => false
  | a :: as, b :: bs =>
    if a.toNat < b.toNat then true
    else if b.toNat < a.toNat then false
    else charListLe as bs

/-- Python `a <= b` on strings: lexicographic by code point. -/
def strLe (a b : String) : Bool := charListLe a.data b.data

/-- The sorting relation used to model Python `list.sort()` on strings. -/
def strLeProp (a b : String) : Prop := strLe a b = true

instance : DecidableRel strLeProp :=
  fun a b => inferInstanceAs (Decidable (strLe a b = true))

/-- Python `str.upper()` (the inputs in this repository are ASCII). -/
def strUpper (s : String) : String := String.mk (s.data.map Char.toUpper)

/-- Python `s.replace(c, d)` for single-character patterns. -/
def strReplaceChar (s : String) (c d : Char) : String :=
  String.mk (s.data.map (fun ch => if ch = c then d else ch))

/-- Python `s.replace('/', '_')`, used to flatten object-file names. -/
def strReplaceSlash (s : String) : String := strReplaceChar s '/' '_'

/-- Python `s.endswith(suffix)`. -/
def strEndsWith (suffix s : String) : Bool := suffix.data.isSuffixOf s.data

/-- Python `s.startswith(p)`. -/
def strStartsWith (p s : String) : Bool := p.data.isPrefixOf s.data

/-- First position of `needle` in a character list, if any
(Python `str.find`, returning `none` instead of `-1`). -/
def findSubstrPos (needle : List Char) : List Char → Option Nat
  | [] => if needle.isEmpty then some 0 else none
  | c :: rest =>
    if needle.isPrefixOf (c :: rest) then some 0
    else (findSubstrPos needle rest).map (· + 1)

/-- Python `hay.find(needle)` (as an `Option`). -/
def strFind (hay needle : String) : Option Nat := findSubstrPos needle.data hay.data

/-- Decimal digit value of a character, if it is a digit. -/
def digitVal (c : Char) : Option Nat :=
  if 48 ≤ c.toNat ∧ c.toNat ≤ 57 then some (c.toNat - 48) else none

/-- Accumulating decimal parse of a digit list. -/
def parseDigitsAux : List Char → Nat → Option Nat
  | [], acc => some acc
  | c :: cs, acc =>
    match digitVal c with
    | some d => parseDigitsAux cs (acc * 10 + d)
    | none => none

/-- Python `int(s)` on canonical decimal literals (optional minus sign followed
by digits); `none` models the `ValueError` raised on anything else. -/
def parseInt (s : String) : Option Int :=
  match s.data with
  | [] => none
  | '-' :: rest =>
    if rest.isEmpty then none
    else (parseDigitsAux rest 0).map (fun n => -(n : Int))
  | c :: rest => (parseDigitsAux (c :: rest) 0).map (fun n => (n : Int))

/-- `needle` occurs in `hay` starting at character index `i`. -/
def occursAt (needle hay : String) (i : Nat) : Prop :=
  needle.data.isPrefixOf (hay.data.drop i) = true

/-! ## `build_scripts/common.py` -/

/-- One entry of an `os.listdir` result together with its `os.path.isdir`
status, the filesystem information `common.getLibNames` consumes. -/
structure DirEntry where
  name : String
  isDir : Bool
deriving DecidableEq, Repr

/-- The environment variables the build scripts read, pre-parsed as integers
(`None` for unset). `int()` failures on garbage values are out of scope. -/
structure Env where
  angame_no_tracy : Option Int
  angame_no_optimize : Option Int
  angame_ndebug : Option Int
  angame_no_debug_symbols : Option Int
  angame_sanitize_address : Option Int
  angame_release : Option Int
deriving DecidableEq, Repr

/-- Python `env_str is not None and int(env_str) == 1`. -/
def envFlagIsOne : Option Int → Bool
  | some n => n == 1
  | none => false

/-- `common.isTracyEnabled`. -/
def isTracyEnabled (env : Env) : Bool := !(envFlagIsOne env.angame_no_tracy)

/-- `common.getLibNames`: the subdirectory names of `plugins_src`, sorted
(Python `list.sort()`, lexicographic by code point). -/
def getLibNames (plugins_src_listing : List DirEntry) : List String :=
  List.insertionSort strLeProp
    ((plugins_src_listing.filter (fun e => e.isDir)).map (fun e => e.name))

/-- `common.getCompilerFlags_m`. -/
def getCompilerFlags_m : List String := ["-march=native"]

/-- `common.getCompilerFlag_O`. -/
def getCompilerFlag_O (env : Env) : List String :=
  if envFlagIsOne env.angame_no_optimize then ["-O0"] else ["-O3"]

/-- `common.getCompilerFlag_DNDEBUG`. -/
def getCompilerFlag_DNDEBUG (env : Env) : List String :=
  if envFlagIsOne env.angame_ndebug then ["-DNDEBUG"] else []

/-- `common.getCompilerFlag_g`. -/
def getCompilerFlag_g (env : Env) : List String :=
  if envFlagIsOne env.angame_no_debug_symbols then ["-g0"] else ["-g3"]

/-- `common.getCompilerFlags_TracyDefines`. -/
def getCompilerFlags_TracyDefines (env : Env) : List String :=
  if isTracyEnabled env then
    ["-DTRACY_ENABLE", "-DTRACY_ON_DEMAND", "-DTRACY_NO_BROADCAST",
     "-DTRACY_VK_USE_SYMBOL_TABLE"]
  else []

/-- `common.getCompilerAndLinkerFlags_sanitizers`. -/
def getCompilerAndLinkerFlags_sanitizers (env : Env) : List String :=
  if envFlagIsOne env.angame_sanitize_address then ["-fsanitize=address"] else []

/-- `common.WARNING_FLAGS`. -/
def WARNING_FLAGS : List String :=
  ["-Werror", "-Wall", "-Wextra", "-Walloc-zero", "-Wcast-qual", "-Wconversion",
   "-Wduplicated-branches", "-Wduplicated-cond", "-Wfloat-equal", "-Wformat=2",
   "-Wformat-signedness", "-Winit-self", "-Wlogical-op", "-Wmissing-declarations",
   "-Wshadow", "-Wswitch", "-Wundef", "-Wunused-result", "-Wwrite-strings",
   "-Wsign-conversion", "-Wno-missing-field-initializers"]

/-- `common.COMPILE_FLAGS_FOR_LIB_SRC_FILES_USED_BY_PLUGINS`. -/
def COMPILE_FLAGS_FOR_LIB_SRC_FILES_USED_BY_PLUGINS : List (String × List String) :=
  [("libs/loguru/loguru.cpp", ["-I", "libs/loguru"])]

/-- Modelled from the spec: `common.isReleaseBuild` is called by
`D_linkPlugins_dependsOn_BC.py` and `E_compileMainProgram_dependsOn_A.py` but
is absent from the `common.py` in the tree; per the spec's
"release-vs-debug optimization level" configuration switch it reads the
release environment toggle. -/
def isReleaseBuild (env : Env) : Bool := envFlagIsOne env.angame_release

/-! ## `build_scripts/A_generatePluginHeaders.py` — the Header Generator -/

/-- One argument of a procedure in a descriptor: its `type` and optional
`name` keys. -/
structure Arg where
  type : String
  name : Option String
deriving DecidableEq, Repr

/-- One procedure record of a descriptor document: `return`, `name`, `args`
(`return` is a Lean keyword, so the field is called `ret`). -/
structure Procedure where
  ret : String
  name : String
  args : List Arg
deriving DecidableEq, Repr

/-- `pascalcase` from `A_generatePluginHeaders.py`: uppercase the first
character and every character following an underscore, then drop the
underscores. The Python version mutates the char array in place, but an
already-uppercased predecessor compares equal to `'_'` exactly when the
original did, so checking the original predecessor is equivalent. -/
def upperAfterUnderscores : Char → List Char → List Char
  | _, [] => []
  | prev, c :: rest =>
    (if prev = '_' then c.toUpper else c) :: upperAfterUnderscores c rest

/-- `pascalcase` applied to a whole string (empty input is unreachable in the
scripts, which apply it to nonempty plugin names). -/
def pascalcase (s_in : String) : String :=
  match s_in.data with
  | [] => String.mk []
  | c :: rest => String.mk ((c.toUpper :: upperAfterUnderscores c rest).filter (fun ch => ch ≠ '_'))

/-- The call-table struct name computed inline at lines 131-138 of
`A_generatePluginHeaders.py`; the computation is character-for-character the
body of `pascalcase`, followed by appending `"Procs"`. -/
def procsStructName (lib_name : String) : String := pascalcase lib_name ++ "Procs"

/-- The `// ====...====` banner line (107 equals signs). -/
def bannerEqLine : String := "// " ++ String.mk (List.replicate 107 '=')

/-- The five lines produced by each banner `header.write` of the generator:
a blank, `//`, the equals banner, `//`, a blank. -/
def bannerLines : List String := ["", "//", bannerEqLine, "//", ""]

/-- One argument as printed inside a function-pointer alias: the `type`,
then the optional `name` separated by a space. -/
def argDecl (arg : Arg) : String :=
  arg.type ++ (match arg.name with | some n => " " ++ n | none => "")

/-- The `using FN_<name> = <ret> (<args>);` alias line for one procedure
(arguments joined with `", "`). -/
def fnAliasLine (proc : Procedure) : String :=
  "using FN_" ++ proc.name ++ " = " ++ proc.ret ++ " (" ++
    String.intercalate ", " (proc.args.map argDecl) ++ ");"

/-- The `    FN_<name>* <name>;` field line of the call-table struct. -/
def structFieldLine (name : String) : String :=
  "    FN_" ++ name ++ "* " ++ name ++ ";"

/-- The per-plugin ABI header (`plugin_<lib>.hpp`), as its list of lines:
warning banner, include guard, types include, namespace, one alias per
procedure, then the call-table struct with one pointer field per procedure in
declaration order. There is no duplicate-procedure-name check. -/
def emitPluginHeader (lib_name : String) (procs : List Procedure) : List String :=
  let header_filename := "plugin_" ++ lib_name ++ ".hpp"
  let include_guard_macro := "_" ++ strReplaceChar (strUpper header_filename) '.' '_'
  let struct_name := procsStructName lib_name
  ["//! WARNING: this file is auto-generated (by `build_scripts/A_generatePluginHeaders.py`).",
   "",
   "#ifndef " ++ include_guard_macro,
   "#define " ++ include_guard_macro,
   "",
   "#include \"../../plugins_src/" ++ lib_name ++ "/" ++ lib_name ++ "_types.hpp\"",
   "",
   "namespace " ++ lib_name ++ " \x7b"]
  ++ bannerLines
  ++ procs.map fnAliasLine
  ++ [""]
  ++ ["struct " ++ struct_name ++ " \x7b"]
  ++ procs.map (fun proc => structFieldLine proc.name)
  ++ ["\x7d;"]
  ++ bannerLines
  ++ ["\x7d // namespace", "", "#endif // include guard"]

/-- The `PluginInfo` dataclass of `A_generatePluginHeaders.py`. -/
structure PluginInfo where
  src_dir : String
  shared_object_path : String
  proc_names : List String
  procs_struct_name : String
  lib_name : String
  watch_filepaths : List String
deriving DecidableEq, Repr

/-- The per-plugin loop body of `A_generatePluginHeaders.py` (lines 61-173):
build the `PluginInfo` recorded for the registry artifact. `watch_filepaths`
stands for the result of `appendNonDirFilesRecursive` over the plugin's
source directory (a filesystem recursion, supplied as an input). -/
def mkPluginInfo (lib_name : String) (procs : List Procedure)
    (watch_filepaths : List String) : PluginInfo :=
  { src_dir := "plugins_src/" ++ lib_name
    shared_object_path := "build/D_linkPlugins_dependsOn_BC/" ++ lib_name ++ ".so"
    proc_names := procs.map (fun p => p.name)
    procs_struct_name := procsStructName lib_name
    lib_name := lib_name
    watch_filepaths := watch_filepaths }

/-- One `PluginProcInfo { ... }` initializer (lines 240-244): the procedure
name and an `offsetof` expression over the plugin's own namespaced call-table
struct type. -/
def procInfoEntryLines (info : PluginInfo) (name : String) : List String :=
  ["    PluginProcInfo \x7b",
   "        .proc_name = \"" ++ name ++ "\",",
   "        .offset_in_procs_struct = offsetof(" ++ info.lib_name ++ "::" ++
     info.procs_struct_name ++ ", " ++ name ++ "),",
   "    \x7d,"]

/-- The `PROC_COUNT_` / `PROC_INFOS_` table for one plugin (lines 237-246).
`stale_lib_name` is the value of the module-level variable `lib_name` at this
point: the last name of the earlier per-plugin loop, NOT
`plugin_info.lib_name` (the `f"...{lib_name.upper()}..."` occurrences in the
source are leftovers of the earlier loop variable). -/
def procInfoTableLines (stale_lib_name : String) (info : PluginInfo) : List String :=
  ["constexpr u32fast PROC_COUNT_" ++ strUpper stale_lib_name ++ " = " ++
     toString info.proc_names.length ++ ";",
   "constexpr PluginProcInfo PROC_INFOS_" ++ strUpper stale_lib_name ++
     "[PROC_COUNT_" ++ strUpper info.lib_name ++ "] \x7b"]
  ++ (info.proc_names.map (procInfoEntryLines info)).flatten
  ++ ["\x7d;"]

/-- The proc-info tables of all plugins, with a blank line between consecutive
tables (the `plugin_idx != plugin_count - 1` check of line 248). -/
def procInfoTablesSection (stale_lib_name : String) : List PluginInfo → List String
  | [] => []
  | [info] => procInfoTableLines stale_lib_name info
  | info :: rest =>
    procInfoTableLines stale_lib_name info ++ [""] ++
      procInfoTablesSection stale_lib_name rest

/-- The `WATCH_FILEPATH_COUNT_` / `WATCH_FILEPATHS_` table for one plugin
(lines 262-268); `stale_lib_name` as in `procInfoTableLines`. -/
def watchTableLines (stale_lib_name : String) (info : PluginInfo) : List String :=
  ["constexpr u32fast WATCH_FILEPATH_COUNT_" ++ strUpper stale_lib_name ++ " = " ++
     toString info.watch_filepaths.length ++ ";",
   "const char *const WATCH_FILEPATHS_" ++ strUpper stale_lib_name ++
     "[WATCH_FILEPATH_COUNT_" ++ strUpper info.lib_name ++ "] \x7b"]
  ++ info.watch_filepaths.map (fun path => "    \"" ++ path ++ "\",")
  ++ ["\x7d;"]

/-- The watch-file tables of all plugins, blank-separated (lines 259-270). -/
def watchTablesSection (stale_lib_name : String) : List PluginInfo → List String
  | [] => []
  | [info] => watchTableLines stale_lib_name info
  | info :: rest =>
    watchTableLines stale_lib_name info ++ [""] ++ watchTablesSection stale_lib_name rest

/-- One `PluginReloadInfo { ... }` initializer (lines 284-293). The
`.proc_count` / `.p_proc_infos` references use `plugin_info.lib_name`, but
`.name`, `.watch_filepath_count` and `.p_watch_filepaths` use the stale
module-level `lib_name`. -/
def reloadInfoEntryLines (stale_lib_name : String) (info : PluginInfo) : List String :=
  ["    PluginReloadInfo \x7b",
   "        .shared_object_path = \"" ++ info.shared_object_path ++ "\",",
   "        .proc_count = PROC_COUNT_" ++ strUpper info.lib_name ++ ",",
   "        .p_proc_infos = PROC_INFOS_" ++ strUpper info.lib_name ++ ",",
   "        .compile_script = \"build_scripts/C_compilePluginSources.py\",",
   "        .link_script = \"build_scripts/D_linkPlugins_dependsOn_BC.py\",",
   "        .name = \"" ++ stale_lib_name ++ "\",",
   "        .watch_filepath_count = WATCH_FILEPATH_COUNT_" ++ strUpper stale_lib_name ++ ",",
   "        .p_watch_filepaths = WATCH_FILEPATHS_" ++ strUpper stale_lib_name ++ ",",
   "    \x7d,"]

/-- One `PluginProcStructInfo { ... }` initializer (lines 301-304):
`alignof` / `sizeof` over the plugin's own namespaced call-table struct. -/
def procStructInfoEntryLines (info : PluginInfo) : List String :=
  ["    PluginProcStructInfo \x7b",
   "        .alignment = alignof(" ++ info.lib_name ++ "::" ++ info.procs_struct_name ++ "),",
   "        .size = sizeof(" ++ info.lib_name ++ "::" ++ info.procs_struct_name ++ "),",
   "    \x7d,"]

/-- The fixed preamble of `plugin_infos.hpp` up to and including the
`PluginReloadInfo` struct definition and the banner before the tables
(lines 178-232), plus the per-plugin `#include` lines. -/
def infosPreambleLines (infos : List PluginInfo) : List String :=
  ["//! WARNING: this file is auto-generated (by `build_scripts/A_generatePluginHeaders.py`).",
   "",
   "#ifndef _PLUGIN_INFOS_HPP",
   "#define _PLUGIN_INFOS_HPP",
   "",
   "#include \"plugin_ids.hpp\""]
  ++ infos.map (fun info =>
       "#include \"" ++ info.lib_name ++ "/plugin_" ++ info.lib_name ++ ".hpp\"")
  ++ ["",
      "namespace plugin_infos \x7b",
      "",
      "//", bannerEqLine, "//",
      "",
      "struct PluginProcStructInfo \x7b",
      "    u32fast alignment;",
      "    u32fast size;",
      "\x7d;",
      "",
      "struct PluginProcInfo \x7b",
      "    const char* proc_name;",
      "    u32fast offset_in_procs_struct;",
      "\x7d;",
      "",
      "struct PluginReloadInfo \x7b",
      "",
      "    const char* shared_object_path;",
      "",
      "    u32fast proc_count;",
      "    const PluginProcInfo* p_proc_infos;",
      "",
      "    const char* compile_script;",
      "    const char* link_script;",
      "",
      "    const char* name;",
      "",
      "    u32fast watch_filepath_count;",
      "    const char *const *p_watch_filepaths;",
      "\x7d;",
      "",
      "//", bannerEqLine, "//",
      ""]

/-- `plugin_infos.hpp` (lines 176-319). The module-level `lib_name` still
holds the last element of the (sorted) plugin-name list from the per-plugin
loop; with no plugins the loop never ran and the name is never interpolated,
so the `getD` default is unreachable. -/
def emitInfosHeader (infos : List PluginInfo) : List String :=
  let stale_lib_name := ((infos.getLast?).map (fun i => i.lib_name)).getD ""
  infosPreambleLines infos
  ++ procInfoTablesSection stale_lib_name infos
  ++ bannerLines
  ++ watchTablesSection stale_lib_name infos
  ++ bannerLines
  ++ (["constexpr PluginReloadInfo PLUGIN_RELOAD_INFOS[PluginID_COUNT] \x7b"]
      ++ (infos.map (reloadInfoEntryLines stale_lib_name)).flatten
      ++ ["\x7d;"])
  ++ (["constexpr PluginProcStructInfo PLUGIN_PROC_STRUCT_INFOS[PluginID_COUNT] \x7b"]
      ++ (infos.map procStructInfoEntryLines).flatten
      ++ ["\x7d;"])
  ++ ["", "//", bannerEqLine, "//", "", "\x7d // namespace", "", "#endif // include guard"]

/-- One `PluginID_<PascalName> = <i>,` enum entry line (line 337). -/
def idEnumEntryLine (i : Nat) (lib_name : String) : String :=
  "    PluginID_" ++ pascalcase lib_name ++ " = " ++ toString i ++ ","

/-- The enum entry lines for plugins numbered from `i` upward
(the `enumerate(plugin_infos)` loop of lines 336-337). -/
def idEnumEntryLines (i : Nat) : List PluginInfo → List String
  | [] => []
  | info :: rest => idEnumEntryLine i info.lib_name :: idEnumEntryLines (i + 1) rest

/-- `plugin_ids.hpp` (lines 322-349): the `PluginID` enum in generation order
with a trailing `PluginID_COUNT` sentinel. -/
def emitIdsHeader (infos : List PluginInfo) : List String :=
  ["",
   "#ifndef _PLUGIN_IDS",
   "#define _PLUGIN_IDS",
   "",
   "//", bannerEqLine, "//",
   "",
   "enum PluginID \x7b"]
  ++ idEnumEntryLines 0 infos
  ++ ["    PluginID_COUNT",
      "\x7d;",
      "",
      "//", bannerEqLine, "//",
      "",
      "#endif // include guard"]

/-- The whole generation pass: one `PluginInfo` per plugin, in the order
`getLibNames` yields (sorted). `descriptor` gives each plugin's `procedures`
list (parsed `info.toml`); `watchFiles` gives the recursive file listing of
its source directory. -/
def runGeneration (listing : List DirEntry) (descriptor : String → List Procedure)
    (watchFiles : String → List String) : List PluginInfo :=
  (getLibNames listing).map (fun lib => mkPluginInfo lib (descriptor lib) (watchFiles lib))

/-! ## Build-stage traces

Each stage script is embedded as a function from its filesystem and
command-line inputs to the ordered list of externally visible actions it
performs, the files left in its output directory, and its termination
status. -/

/-- An externally visible action of a build script, in program order. -/
inductive Event where
  | deleteTree : String → Event
  | mkdir : String → Event
  | spawn : List String → Event
  | print : String → Event
deriving DecidableEq, Repr

/-- The outcome of one stage invocation: its action trace, the files present
in its output directory afterwards, and `exitMsg = some m` when the script
terminated with a nonzero status (`m` is the `sys.exit` message, or the code
for a bare `exit(1)` / failed `assert`). -/
structure StageResult where
  events : List Event
  files : List String
  exitMsg : Option String
deriving DecidableEq, Repr

/-! ### `build_scripts/C_compilePluginSources.py` -/

/-- Inputs of one `C_compilePluginSources.py` invocation. `prior_files` are
the files already in `build/C_compilePluginSources` from earlier runs (the
script removes the whole tree at startup). `plugin_source_files` is the
`plugin_source_files` list of each plugin's `info.toml` (the script's
`assert`s that it is a list of strings hold by typing). `compileOk` tells
whether `g++` exits zero for a given source file. -/
structure StageCInput where
  prior_files : List String
  plugins_src_listing : List DirEntry
  argv : List String
  plugin_source_files : String → List String
  isFile : String → Bool
  compileOk : String → Bool

/-- The `g++` command of lines 159-170 for one (already plugin-dir-prefixed)
source file: warning flags minus `-Wmissing-declarations`, then the
`DNDEBUG` / `g` / `O` environment flags. -/
def stageC_compileCommand (env : Env) (objdir src_filepath : String) : List String :=
  ["g++", "-c", "-fPIC", "-isystem", "libs", src_filepath,
   "-o", objdir ++ "/" ++ strReplaceSlash src_filepath ++ ".o"]
  ++ WARNING_FLAGS.erase "-Wmissing-declarations"
  ++ getCompilerFlag_DNDEBUG env ++ getCompilerFlag_g env ++ getCompilerFlag_O env

/-- The inner source-file loop of lines 144-174: sequential `sp.run` per file,
`sys.exit` at the first missing file or failed compile (so later files are
neither checked nor compiled). Returns (events, objects created, exit). -/
def stageC_runSrcs (env : Env) (isFile compileOk : String → Bool) (objdir : String) :
    List String → List Event × List String × Option String
  | [] => ([], [], none)
  | src :: rest =>
    if isFile src then
      let cmd := stageC_compileCommand env objdir src
      let obj := objdir ++ "/" ++ strReplaceSlash src ++ ".o"
      if compileOk src then
        let r := stageC_runSrcs env isFile compileOk objdir rest
        (Event.spawn cmd :: r.1, obj :: r.2.1, r.2.2)
      else
        ([Event.spawn cmd], [], some ("Error: Failed to compile file `" ++ src ++ "`."))
    else
      ([], [], some ("Error: File `" ++ src ++ "` does not exist or is not a file."))

/-- The outer per-plugin loop of lines 129-174: make the plugin's object
directory, then compile its sources; a `sys.exit` inside one plugin stops the
whole script. -/
def stageC_runLibs (env : Env) (isFile compileOk : String → Bool)
    (plugin_source_files : String → List String) :
    List String → List Event × List String × Option String
  | [] => ([], [], none)
  | lib :: rest =>
    let objdir := "build/C_compilePluginSources/" ++ lib
    let srcs := (plugin_source_files lib).map (fun s => "plugins_src/" ++ lib ++ "/" ++ s)
    let r := stageC_runSrcs env isFile compileOk objdir srcs
    match r.2.2 with
    | some m => (Event.mkdir objdir :: r.1, r.2.1, some m)
    | none =>
      let r2 := stageC_runLibs env isFile compileOk plugin_source_files rest
      (Event.mkdir objdir :: r.1 ++ r2.1, r.2.1 ++ r2.2.1, r2.2.2)

/-- `C_compilePluginSources.py`: wipe and recreate the stage directory
(lines 13-16, unconditionally destroying `prior_files`), then resolve the
requested plugin subset — printing one error per unknown name and exiting
before any compile when some name is unknown (lines 19-34) — and finally
compile each requested plugin's sources sequentially. -/
def stageC (env : Env) (inp : StageCInput) : StageResult :=
  let pre := [Event.deleteTree "build/C_compilePluginSources",
              Event.mkdir "build/C_compilePluginSources"]
  match inp.argv with
  | [] =>
    ⟨pre, [],
     some "len(argv) is 0. It\x27s not technically bad but it\x27s weird, maybe something is wrong?"⟩
  | [_] =>
    let libs := getLibNames inp.plugins_src_listing
    let r := stageC_runLibs env inp.isFile inp.compileOk inp.plugin_source_files libs
    ⟨pre ++ r.1, r.2.1, r.2.2⟩
  | _ :: requested =>
    let all_libs := getLibNames inp.plugins_src_listing
    let nonexistent := requested.filter (fun n => !(all_libs.contains n))
    if nonexistent.isEmpty then
      let r := stageC_runLibs env inp.isFile inp.compileOk inp.plugin_source_files requested
      ⟨pre ++ r.1, r.2.1, r.2.2⟩
    else
      ⟨pre ++ nonexistent.map (fun n => Event.print ("Error: No plugin named `" ++ n ++ "`.")),
       [], some "Error: Not all requested plugins exist."⟩

/-! ### `build_scripts/D_linkPlugins_dependsOn_BC.py` -/

/-- Inputs of one `D_linkPlugins_dependsOn_BC.py` invocation. `listdirC lib`
is `os.listdir` of that plugin's compiled-object directory, `listdirB` of the
shared-object-pool directory; `linkOk` tells whether `g++` exits zero for a
given output artifact path. -/
structure StageDInput where
  prior_files : List String
  plugins_src_listing : List DirEntry
  argv : List String
  listdirC : String → List String
  listdirB : List String
  isFile : String → Bool
  linkOk : String → Bool

/-- Argument parsing of lines 29-46: `name1 version1 name2 version2 ...`;
`none` models the `assert` on odd length, the `ValueError` of `int()` on a
malformed version, and the `assert version >= 0`. -/
def parseNameVersionPairs : List String → Option (List (String × Int))
  | [] => some []
  | [_] => none
  | n :: v :: rest =>
    match parseInt v, parseNameVersionPairs rest with
    | some ver, some ps => if 0 ≤ ver then some ((n, ver) :: ps) else none
    | _, _ => none

/-- The link loop of lines 58-87: per requested (name, version) pair, gather
that plugin's objects plus all shared objects, `assert` each ends in `.o`
and is a file, link into `<name>.so.<version>` inside the stage directory,
and `sys.exit` naming that artifact on the first link failure. -/
def stageD_runLinks (listdirC : String → List String) (listdirB : List String)
    (isFile linkOk : String → Bool) :
    List (String × Int) → List Event × List String × Option String
  | [] => ([], [], none)
  | (lib, ver) :: rest =>
    let plugin_objects_dir := "build/C_compilePluginSources/" ++ lib
    let other_objects_dir := "build/B_compileNonPluginSourcesForPlugins"
    let object_filepaths :=
      (listdirC lib).map (fun fname => plugin_objects_dir ++ "/" ++ fname)
      ++ listdirB.map (fun fname => other_objects_dir ++ "/" ++ fname)
    if object_filepaths.all (fun p => strEndsWith ".o" p && isFile p) then
      let shared_object_filename := lib ++ ".so." ++ toString ver
      let out := "build/D_linkPlugins_dependsOn_BC/" ++ shared_object_filename
      let cmd := ["g++", "-fPIC", "-shared", "-o", out] ++ object_filepaths
      if linkOk out then
        let r := stageD_runLinks listdirC listdirB isFile linkOk rest
        (Event.spawn cmd :: r.1, out :: r.2.1, r.2.2)
      else
        ([Event.spawn cmd], [],
         some ("Error: Failed to link file `" ++ shared_object_filename ++ "`."))
    else ([], [], some "AssertionError")

/-- `D_linkPlugins_dependsOn_BC.py`: wipe and recreate the stage directory
(lines 12-17 — including every previously linked versioned artifact, as the
script's own `TODO FIXME` comment records), parse the name/version argument
pairs (all versions default to 0 when no arguments are given), reject unknown
plugin names before any link (lines 48-55), then link sequentially. -/
def stageD (env : Env) (inp : StageDInput) : StageResult :=
  let pre := [Event.deleteTree "build/D_linkPlugins_dependsOn_BC",
              Event.mkdir "build/D_linkPlugins_dependsOn_BC"]
  let _is_release_build := isReleaseBuild env
  match inp.argv with
  | [] =>
    ⟨pre, [],
     some "len(argv) is 0. It\x27s not technically bad but it\x27s weird, maybe something is wrong?"⟩
  | [_] =>
    let libs := getLibNames inp.plugins_src_listing
    let pairs := libs.map (fun lib => (lib, (0 : Int)))
    let r := stageD_runLinks inp.listdirC inp.listdirB inp.isFile inp.linkOk pairs
    ⟨pre ++ r.1, r.2.1, r.2.2⟩
  | _ :: args =>
    match parseNameVersionPairs args with
    | none => ⟨pre, [], some "AssertionError"⟩
    | some pairs =>
      let all_libs := getLibNames inp.plugins_src_listing
      let nonexistent := (pairs.map (fun p => p.1)).filter (fun n => !(all_libs.contains n))
      if nonexistent.isEmpty then
        let r := stageD_runLinks inp.listdirC inp.listdirB inp.isFile inp.linkOk pairs
        ⟨pre ++ r.1, r.2.1, r.2.2⟩
      else
        ⟨pre ++ nonexistent.map (fun n => Event.print ("Error: No plugin named `" ++ n ++ "`.")),
         [], some "Error: Not all requested plugins exist."⟩

/-! ### `build_scripts/B_compileNonPluginSourcesForPlugins.py` -/

/-- Inputs of one `B_compileNonPluginSourcesForPlugins.py` invocation;
`other_source_files` is the `other_source_files` list of each plugin's
`info.toml` (paths relative to the repository root). -/
structure StageBInput where
  prior_files : List String
  plugins_src_listing : List DirEntry
  other_source_files : String → List String
  isFile : String → Bool
  compileOk : String → Bool

/-- The `g++` command of lines 258-276 for one shared source file: per-file
extra flags from the `libs/` flag table when the path starts with `libs`,
`-isystem libs` otherwise. -/
def stageB_compileCommand (env : Env) (src_filepath : String) : List String :=
  let additional_flags :=
    if strStartsWith "libs" src_filepath then
      match COMPILE_FLAGS_FOR_LIB_SRC_FILES_USED_BY_PLUGINS.lookup src_filepath with
      | some flags => flags
      | none => []
    else ["-isystem", "libs"]
  ["g++", "-c", "-fPIC", src_filepath,
   "-o", "build/B_compileNonPluginSourcesForPlugins/" ++ strReplaceSlash src_filepath ++ ".o"]
  ++ getCompilerFlag_DNDEBUG env ++ getCompilerFlag_g env ++ getCompilerFlag_O env
  ++ additional_flags

/-- The spawn phase of lines 241-279: `sp.Popen` every source of every plugin
without waiting (a missing file `sys.exit`s mid-spawn). Returns the spawn
events, the sources spawned so far in order, and the early exit if any. -/
def stageB_spawns (env : Env) (isFile : String → Bool) :
    List String → List Event × List String × Option String
  | [] => ([], [], none)
  | src :: rest =>
    if isFile src then
      let r := stageB_spawns env isFile rest
      (Event.spawn (stageB_compileCommand env src) :: r.1, src :: r.2.1, r.2.2)
    else
      ([], [], some ("Error: File `" ++ src ++ "` does not exist or is not a file."))

/-- `B_compileNonPluginSourcesForPlugins.py`: wipe and recreate the stage
directory, spawn every compile concurrently, then join them all (lines
281-287) and report one aggregate failure only after every unit finished. -/
def stageB (env : Env) (inp : StageBInput) : StageResult :=
  let pre := [Event.deleteTree "build/B_compileNonPluginSourcesForPlugins",
              Event.mkdir "build/B_compileNonPluginSourcesForPlugins"]
  let libs := getLibNames inp.plugins_src_listing
  let srcs := (libs.map inp.other_source_files).flatten
  let r := stageB_spawns env inp.isFile srcs
  match r.2.2 with
  | some m => ⟨pre ++ r.1, [], some m⟩
  | none =>
    let objs := (r.2.1.filter inp.compileOk).map
      (fun s => "build/B_compileNonPluginSourcesForPlugins/" ++ strReplaceSlash s ++ ".o")
    if r.2.1.all inp.compileOk then ⟨pre ++ r.1, objs, none⟩
    else ⟨pre ++ r.1 ++ [Event.print "A compilation failed; aborting build."], objs, some "1"⟩

/-! ### `build.py` and `build_scripts/E_compileMainProgram_dependsOn_A.py` -/

/-- One top-level file of the `src/` directory together with its lines
(what `os.listdir` plus `readlines` yield; the trailing newlines of
`readlines` do not affect a `find` of `"@nocompile"` and are omitted). -/
structure SrcFile where
  name : String
  lines : List String
deriving DecidableEq, Repr

/-- The `FileAndLocation` dataclass of `build.py` / the E stage. -/
structure FileAndLocation where
  filename : String
  line : Nat
  col : Nat
deriving DecidableEq, Repr

/-- The `@nocompile` scan of `build.py` lines 83-93 (identical in the E
stage): for every file of the `src/` listing and every line of it, record
`(filename, line index, column)` of the line's first `"@nocompile"`
occurrence (Python `str.find` returns only the first hit per line). -/
def nocompileScan (src_listing : List SrcFile) : List FileAndLocation :=
  (src_listing.map (fun f =>
    f.lines.enum.filterMap (fun p =>
      (strFind p.2 "@nocompile").map (fun col => ⟨f.name, p.1, col⟩)))).flatten

/-- The report printed when the scan is nonempty (lines 95-99). -/
def nocompileReportLines (nocompile_list : List FileAndLocation) : List String :=
  ["Error: the following source files contain \"@nocompile\":"]
  ++ nocompile_list.map (fun nc =>
       "    - " ++ nc.filename ++ ":" ++ toString nc.line ++ ":" ++ toString nc.col)
  ++ ["Aborting build due to \"@nocompile\"."]

/-- `filesInDirWithSuffix` of `build.py` / the E stage, over a listing. -/
def filesInDirWithSuffix (listing : List String) (suffix : String) : List String :=
  listing.filter (fun s => strEndsWith suffix s)

/-- The `Library` dataclass of `build.py` / the E stage. -/
structure Library where
  source_file_paths : List String
  additional_compile_flags : List String
deriving DecidableEq, Repr

/-- The hardcoded `TRACY = True` of `build.py` and the E stage. -/
def TRACY : Bool := true

/-- `MY_COMPILE_FLAGS_W` of `build.py` (its own copy of the warning flags,
identical in content to `common.WARNING_FLAGS`). -/
def MY_COMPILE_FLAGS_W : List String := WARNING_FLAGS

/-- Inputs of a `build.py` (or E-stage) run: the environment, the
`pkg-config` query results, the directory listings consulted, and the exit
statuses of the spawned toolchain commands (`procOk` is true when the command
exits zero). `src_listing` carries file contents for the `@nocompile` scan. -/
structure BuildInput where
  env : Env
  pkg_config_stderr : String
  glfw_link_flags : List String
  src_listing : List SrcFile
  libs_imgui_listing : List String
  libs_implot_listing : List String
  libs_tracy_listing : List String
  intermediate_listing : List String
  procOk : List String → Bool

/-- The shader sources of the `src/` listing (suffix `.vert`/`.frag`/`.comp`,
lines 117-120 of `build.py`). -/
def shaderSources (src_names : List String) : List String :=
  src_names.filter (fun s =>
    strEndsWith ".vert" s || strEndsWith ".frag" s || strEndsWith ".comp" s)

/-- The five library groups of `build.py` lines 132-172 (tracy appended since
`TRACY` is true), given the `src/` file names and the `libs/...` listings. -/
def buildPyLibs (inp : BuildInput) : List Library :=
  let src_names := inp.src_listing.map (fun f => f.name)
  let lib_my_app : Library :=
    ⟨(filesInDirWithSuffix src_names ".cpp").map (fun s => "src/" ++ s),
     ["-isystem", "libs"] ++ MY_COMPILE_FLAGS_W ++ ["-isystem", "libs/imgui"]⟩
  let lib_loguru : Library := ⟨["libs/loguru/loguru.cpp"], ["-I", "libs/loguru"]⟩
  let lib_imgui : Library :=
    ⟨(filesInDirWithSuffix inp.libs_imgui_listing ".cpp").map (fun s => "libs/imgui/" ++ s), []⟩
  let lib_implot : Library :=
    ⟨(filesInDirWithSuffix inp.libs_implot_listing ".cpp").map (fun s => "libs/implot/" ++ s),
     ["-isystem", "libs/imgui"]⟩
  let lib_tracy : Library :=
    ⟨(filesInDirWithSuffix inp.libs_tracy_listing ".cpp").map (fun s => "libs/tracy/" ++ s),
     ["-isystem", "libs/tracy"]⟩
  [lib_my_app, lib_loguru, lib_imgui, lib_implot] ++ (if TRACY then [lib_tracy] else [])

/-- `COMMON_COMPILE_FLAGS` of `build.py` lines 23-27 (the unparenthesized
Python conditional makes the whole sum conditional on `TRACY`, which is
constant true, so the value is the three parts concatenated). -/
def buildPyCommonCompileFlags (debug_build : Bool) : List String :=
  (if debug_build then ["-g3"] else ["-O3", "-DNDEBUG"])
  ++ ["-DIMGUI_IMPL_VULKAN_NO_PROTOTYPES"]
  ++ (if TRACY then ["-DTRACY_ENABLE"] else [])

/-- The compile commands `build.py` spawns, in spawn order: `glslc` per shader
source, then `g++ -c` per library source file (lines 122-186). -/
def buildPyCompileCommands (inp : BuildInput) : List (List String) :=
  let debug_build := !(envFlagIsOne inp.env.angame_release)
  let common_flags := buildPyCommonCompileFlags debug_build
  (shaderSources (inp.src_listing.map (fun f => f.name))).map (fun s =>
    ["glslc", "src/" ++ s, "-o", "build/" ++ s ++ ".spv"])
  ++ List.flatten ((buildPyLibs inp).map (fun lib =>
       lib.source_file_paths.map (fun src =>
         ["g++", "-c",
          "-o", "build/intermediate_objects/" ++ strReplaceSlash src ++ ".o",
          src] ++ common_flags ++ lib.additional_compile_flags)))

/-- The link command of `build.py` lines 199-209. -/
def buildPyLinkCommand (inp : BuildInput) : List String :=
  ["g++", "-o", "build/test"] ++ ["-lc", "-ldl"] ++ inp.glfw_link_flags
  ++ (filesInDirWithSuffix inp.intermediate_listing ".o").map
       (fun s => "build/intermediate_objects/" ++ s)

/-- `build.py`: query `pkg-config` (aborting if it wrote to stderr), run the
`@nocompile` scan and abort with the full report if it found anything, then
wipe `build/`, spawn every shader and C++ compile, join them all, report an
aggregate failure if any unit failed, and finally link. The closing timing
print (diagnostics only) is omitted. Returns the event trace and the
termination status. -/
def buildPy (inp : BuildInput) : List Event × Option String :=
  let pkg_spawn := Event.spawn ["pkg-config", "--static", "--libs", "glfw3"]
  if inp.pkg_config_stderr ≠ "" then
    ([pkg_spawn, Event.print inp.pkg_config_stderr], some "os.abort")
  else
    let nocompile_list := nocompileScan inp.src_listing
    if !(nocompile_list.isEmpty) then
      ([pkg_spawn] ++ (nocompileReportLines nocompile_list).map Event.print, some "1")
    else
      let cmds := buildPyCompileCommands inp
      let pre := [pkg_spawn, Event.print "building...",
                  Event.deleteTree "build", Event.mkdir "build",
                  Event.mkdir "build/intermediate_objects"]
      let spawns := cmds.map Event.spawn
      if !(cmds.all inp.procOk) then
        (pre ++ spawns ++ [Event.print "A compilation failed; aborting build."], some "1")
      else
        let link_cmd := buildPyLinkCommand inp
        if inp.procOk link_cmd then (pre ++ spawns ++ [Event.spawn link_cmd], none)
        else
          (pre ++ spawns ++ [Event.spawn link_cmd, Event.print "Link failed; aborting build."],
           some "1")

/-- `COMMON_COMPILE_FLAGS` of the E stage (lines 20-24; properly
parenthesized, three Tracy defines). -/
def stageECommonCompileFlags (debug_build : Bool) : List String :=
  (if debug_build then ["-g3"] else ["-O3", "-DNDEBUG"])
  ++ ["-DIMGUI_IMPL_VULKAN_NO_PROTOTYPES"]
  ++ (if TRACY then ["-DTRACY_ENABLE", "-DTRACY_ON_DEMAND", "-DTRACY_NO_BROADCAST"] else [])

/-- The compile commands the E stage spawns, in spawn order (lines 82-151):
as `build.py` but with the E-stage output directories and
`common.WARNING_FLAGS` for the application library. -/
def stageECompileCommands (inp : BuildInput) : List (List String) :=
  let debug_build := !(isReleaseBuild inp.env)
  let common_flags := stageECommonCompileFlags debug_build
  (shaderSources (inp.src_listing.map (fun f => f.name))).map (fun s =>
    ["glslc", "src/" ++ s,
     "-o", "build/E_compileMainProgram_dependsOn_A/shaders/" ++ s ++ ".spv"])
  ++ List.flatten ((buildPyLibs inp).map (fun lib =>
       lib.source_file_paths.map (fun src =>
         ["g++", "-c",
          "-o", "build/E_compileMainProgram_dependsOn_A/intermediate_objects/" ++
            strReplaceSlash src ++ ".o",
          src] ++ common_flags ++ lib.additional_compile_flags)))

/-- The link command of the E stage (lines 164-174). -/
def stageELinkCommand (inp : BuildInput) : List String :=
  ["g++", "-o", "build/E_compileMainProgram_dependsOn_A/angame"]
  ++ ["-lc", "-ldl"] ++ inp.glfw_link_flags
  ++ (filesInDirWithSuffix inp.intermediate_listing ".o").map
       (fun s => "build/E_compileMainProgram_dependsOn_A/intermediate_objects/" ++ s)

/-- `E_compileMainProgram_dependsOn_A.py`: same structure as `build.py`
(pkg-config query, `@nocompile` scan and abort, spawn all, join all, link),
with the E-stage directories created instead of wiping `build/`. Its
`Library` groups reuse the same listings; `lib_my_app` uses
`common.WARNING_FLAGS`, which equals `build.py`'s own copy. -/
def stageE (inp : BuildInput) : List Event × Option String :=
  let pkg_spawn := Event.spawn ["pkg-config", "--static", "--libs", "glfw3"]
  if inp.pkg_config_stderr ≠ "" then
    ([pkg_spawn, Event.print inp.pkg_config_stderr], some "os.abort")
  else
    let nocompile_list := nocompileScan inp.src_listing
    if !(nocompile_list.isEmpty) then
      ([pkg_spawn] ++ (nocompileReportLines nocompile_list).map Event.print, some "1")
    else
      let cmds := stageECompileCommands inp
      let pre := [pkg_spawn,
                  Event.mkdir "build/E_compileMainProgram_dependsOn_A",
                  Event.mkdir "build/E_compileMainProgram_dependsOn_A/intermediate_objects",
                  Event.mkdir "build/E_compileMainProgram_dependsOn_A/shaders"]
      let spawns := cmds.map Event.spawn
      if !(cmds.all inp.procOk) then
        (pre ++ spawns ++ [Event.print "A compilation failed; aborting build."], some "1")
      else
        let link_cmd := stageELinkCommand inp
        if inp.procOk link_cmd then (pre ++ spawns ++ [Event.spawn link_cmd], none)
        else
          (pre ++ spawns ++ [Event.spawn link_cmd, Event.print "Link failed; aborting build."],
           some "1")

/-! ## Order properties of the string comparison -/

theorem char_eq_of_toNat_eq {a b : Char} (h : a.toNat = b.toNat) : a = b :=
  Char.eq_of_val_eq (UInt32.eq_of_toBitVec_eq (BitVec.eq_of_toNat_eq h))

theorem charListLe_total : ∀ as bs, charListLe as bs = true ∨ charListLe bs as = true
  | [], _ => Or.inl rfl
  | _ :: _, [] => Or.inr rfl
  | a :: as, b :: bs => by
    rcases Nat.lt_trichotomy a.toNat b.toNat with h | h | h
    · left
      simp [charListLe, h]
    · have h1 : ¬ a.toNat < b.toNat := by omega
      have h2 : ¬ b.toNat < a.toNat := by omega
      simpa [charListLe, h1, h2] using charListLe_total as bs
    · right
      simp [charListLe, h]

theorem charListLe_trans : ∀ as bs cs, charListLe as bs = true → charListLe bs cs = true →
    charListLe as cs = true
  | [], _, _, _, _ => rfl
  | _ :: _, [], _, h, _ => by simp [charListLe] at h
  | _ :: _, _ :: _, [], _, h => by simp [charListLe] at h
  | a :: as, b :: bs, c :: cs, h1, h2 => by
    rcases Nat.lt_trichotomy a.toNat b.toNat with hab | hab | hab
    · rcases Nat.lt_trichotomy b.toNat c.toNat with hbc | hbc | hbc
      · simp [charListLe, show a.toNat < c.toNat by omega]
      · simp [charListLe, show a.toNat < c.toNat by omega]
      · simp [charListLe, show ¬ b.toNat < c.toNat by omega, hbc] at h2
    · rcases Nat.lt_trichotomy b.toNat c.toNat with hbc | hbc | hbc
      · simp [charListLe, show a.toNat < c.toNat by omega]
      · simp only [charListLe, show ¬ a.toNat < b.toNat by omega,
          show ¬ b.toNat < a.toNat by omega, if_false] at h1
        simp only [charListLe, show ¬ b.toNat < c.toNat by omega,
          show ¬ c.toNat < b.toNat by omega, if_false] at h2
        simpa [charListLe, show ¬ a.toNat < c.toNat by omega,
          show ¬ c.toNat < a.toNat by omega] using charListLe_trans as bs cs h1 h2
      · simp [charListLe, show ¬ b.toNat < c.toNat by omega, hbc] at h2
    · simp [charListLe, show ¬ a.toNat < b.toNat by omega, hab] at h1

theorem charListLe_antisymm : ∀ as bs, charListLe as bs = true → charListLe bs as = true →
    as = bs
  | [], [], _, _ => rfl
  | [], _ :: _, _, h => by simp [charListLe] at h
  | _ :: _, [], h, _ => by simp [charListLe] at h
  | a :: as, b :: bs, h1, h2 => by
    rcases Nat.lt_trichotomy a.toNat b.toNat with hab | hab | hab
    · simp [charListLe, show ¬ b.toNat < a.toNat by omega, hab] at h2
    · simp only [charListLe, show ¬ a.toNat < b.toNat by omega,
        show ¬ b.toNat < a.toNat by omega, if_false] at h1 h2
      rw [char_eq_of_toNat_eq hab, charListLe_antisymm as bs h1 h2]
    · simp [charListLe, show ¬ a.toNat < b.toNat by omega, hab] at h1

instance : IsTotal String strLeProp := ⟨fun a b => charListLe_total a.data b.data⟩

instance : IsTrans String strLeProp :=
  ⟨fun a b c => charListLe_trans a.data b.data c.data⟩

instance : IsAntisymm String strLeProp :=
  ⟨fun a b h1 h2 => String.ext (charListLe_antisymm a.data b.data h1 h2)⟩

theorem getLibNames_sorted (l : List DirEntry) : List.Sorted strLeProp (getLibNames l) :=
  List.sorted_insertionSort strLeProp _

theorem getLibNames_perm (l : List DirEntry) :
    (getLibNames l).Perm ((l.filter (fun e => e.isDir)).map (fun e => e.name)) :=
  List.perm_insertionSort strLeProp _

theorem getLibNames_perm_invariant {l1 l2 : List DirEntry} (h : l1.Perm l2) :
    getLibNames l1 = getLibNames l2 := by
  refine List.eq_of_perm_of_sorted ?_ (getLibNames_sorted l1) (getLibNames_sorted l2)
  exact (getLibNames_perm l1).trans
    (((h.filter _).map _).trans (getLibNames_perm l2).symm)

/-! ## Helper lemmas about the emitted registry artifacts -/

theorem idEnumEntryLines_length :
    ∀ (k : Nat) (infos : List PluginInfo), (idEnumEntryLines k infos).length = infos.length
  | _, [] => rfl
  | k, _ :: rest => by
    simp [idEnumEntryLines, idEnumEntryLines_length (k + 1) rest]

theorem idEnumEntryLines_mem :
    ∀ (infos : List PluginInfo) (k i : Nat) (h : i < infos.length),
      idEnumEntryLine (k + i) ((infos.get ⟨i, h⟩).lib_name) ∈ idEnumEntryLines k infos
  | _ :: _, _, 0, _ => by simp [idEnumEntryLines]
  | _ :: rest, k, i + 1, h => by
    have e : k + (i + 1) = (k + 1) + i := by omega
    simp only [idEnumEntryLines, List.mem_cons]
    right
    rw [e]
    exact idEnumEntryLines_mem rest (k + 1) i (Nat.lt_of_succ_lt_succ h)

theorem runGeneration_get (listing : List DirEntry) (descriptor : String → List Procedure)
    (watchFiles : String → List String) (i : Nat) (h : i < (getLibNames listing).length) :
    (runGeneration listing descriptor watchFiles).get ⟨i, by simpa [runGeneration] using h⟩ =
      mkPluginInfo ((getLibNames listing).get ⟨i, h⟩)
        (descriptor ((getLibNames listing).get ⟨i, h⟩))
        (watchFiles ((getLibNames listing).get ⟨i, h⟩)) := by
  simp [runGeneration]

/-- Claim C2: the plugin id assigned to each plugin is its index in the
lexicographically sorted plugin-name list, the enum ends with a COUNT sentinel
preceded by exactly one entry per plugin, and the whole id table is a pure
function of the plugin-name set: two generation runs over directory listings
that are permutations of each other produce identical id headers. -/
theorem c2_plugin_ids (l1 l2 : List DirEntry) (descriptor : String → List Procedure)
    (watchFiles : String → List String) (hperm : l1.Perm l2) :
    getLibNames l1 = getLibNames l2
    ∧ emitIdsHeader (runGeneration l1 descriptor watchFiles) =
        emitIdsHeader (runGeneration l2 descriptor watchFiles)
    ∧ List.Sorted strLeProp (getLibNames l1)
    ∧ (getLibNames l1).Perm ((l1.filter (fun e => e.isDir)).map (fun e => e.name))
    ∧ (∀ i (h : i < (getLibNames l1).length),
        idEnumEntryLine i ((getLibNames l1).get ⟨i, h⟩) ∈
          emitIdsHeader (runGeneration l1 descriptor watchFiles))
    ∧ (idEnumEntryLines 0 (runGeneration l1 descriptor watchFiles)).length =
        (getLibNames l1).length := by
  have hnames : getLibNames l1 = getLibNames l2 := getLibNames_perm_invariant hperm
  refine ⟨hnames, ?_, getLibNames_sorted l1, getLibNames_perm l1, ?_, ?_⟩
  · unfold runGeneration
    rw [hnames]
  · intro i h
    have h' : i < (runGeneration l1 descriptor watchFiles).length := by
      simpa [runGeneration] using h
    have hm := idEnumEntryLines_mem (runGeneration l1 descriptor watchFiles) 0 i h'
    rw [runGeneration_get l1 descriptor watchFiles i h] at hm
    simp only [Nat.zero_add, mkPluginInfo] at hm
    simp only [emitIdsHeader, List.mem_append, List.mem_cons]
    exact Or.inl (Or.inr hm)
  · simp [idEnumEntryLines_length, runGeneration]

/-- Witness for C2 at a concrete pair of directory listings that are
permutations of each other. -/
theorem c2_plugin_ids_witness :
    ([⟨"fluid_sim", true⟩, ⟨"audio", true⟩, ⟨"README.md", false⟩] : List DirEntry).Perm
        [⟨"README.md", false⟩, ⟨"audio", true⟩, ⟨"fluid_sim", true⟩]
    ∧ getLibNames [⟨"fluid_sim", true⟩, ⟨"audio", true⟩, ⟨"README.md", false⟩] =
        getLibNames [⟨"README.md", false⟩, ⟨"audio", true⟩, ⟨"fluid_sim", true⟩]
    ∧ getLibNames [⟨"fluid_sim", true⟩, ⟨"audio", true⟩, ⟨"README.md", false⟩] =
        ["audio", "fluid_sim"] :=
  ⟨by decide,
   (c2_plugin_ids _ _ (fun _ => []) (fun _ => []) (by decide)).1,
   by decide⟩

theorem procInfoTablesSection_mem (stale : String) :
    ∀ (infos : List PluginInfo) (info : PluginInfo), info ∈ infos →
      ∀ x, x ∈ procInfoTableLines stale info → x ∈ procInfoTablesSection stale infos
  | [], _, h, _, _ => absurd h (List.not_mem_nil _)
  | [_], info, h, x, hx => by
    simp only [List.mem_singleton] at h
    subst h
    simpa [procInfoTablesSection] using hx
  | i :: j :: rest, info, h, x, hx => by
    rcases List.mem_cons.mp h with h | h
    · subst h
      simp only [procInfoTablesSection, List.mem_append]
      exact Or.inl (Or.inl hx)
    · have hrec := procInfoTablesSection_mem stale (j :: rest) info h x hx
      simp only [procInfoTablesSection, List.mem_append]
      exact Or.inr hrec

/-- Claim C1: every entry of a plugin's proc-offset table is an `offsetof`
expression over that plugin's own namespaced call-table struct type — the
very struct that the per-plugin header emitted in the same generation pass
from the same descriptor defines (same namespace, same struct name, one field
per procedure of that descriptor) — and the alignment/size entries are
`alignof`/`sizeof` expressions over the same type. Hence the host-visible
offsets, alignment, and size are whatever the compiler later computes for the
real `CallTable` layout, and cannot be an independently computed guess. -/
theorem c1_offsets_from_compiled_layout (lib : String) (procs : List Procedure)
    (watch : List String) (stale : String) (name : String)
    (infos : List PluginInfo)
    (hname : name ∈ (mkPluginInfo lib procs watch).proc_names)
    (hinfo : mkPluginInfo lib procs watch ∈ infos) :
    ("        .offset_in_procs_struct = offsetof(" ++ lib ++ "::" ++ procsStructName lib ++
        ", " ++ name ++ "),") ∈ procInfoTableLines stale (mkPluginInfo lib procs watch)
    ∧ ("        .offset_in_procs_struct = offsetof(" ++ lib ++ "::" ++ procsStructName lib ++
        ", " ++ name ++ "),") ∈ emitInfosHeader infos
    ∧ ("        .alignment = alignof(" ++ lib ++ "::" ++ procsStructName lib ++ "),") ∈
        emitInfosHeader infos
    ∧ ("        .size = sizeof(" ++ lib ++ "::" ++ procsStructName lib ++ "),") ∈
        emitInfosHeader infos
    ∧ ("namespace " ++ lib ++ " \x7b") ∈ emitPluginHeader lib procs
    ∧ ("struct " ++ procsStructName lib ++ " \x7b") ∈ emitPluginHeader lib procs
    ∧ structFieldLine name ∈ emitPluginHeader lib procs
    ∧ (mkPluginInfo lib procs watch).procs_struct_name = procsStructName lib := by
  have hoff : ∀ st : String, ("        .offset_in_procs_struct = offsetof(" ++ lib ++ "::" ++
      procsStructName lib ++ ", " ++ name ++ "),") ∈
      procInfoTableLines st (mkPluginInfo lib procs watch) := by
    intro st
    simp only [procInfoTableLines, List.mem_append, List.mem_cons, List.mem_flatten]
    refine Or.inl (Or.inr ?_)
    refine ⟨procInfoEntryLines (mkPluginInfo lib procs watch) name, ?_, ?_⟩
    · exact List.mem_map_of_mem _ hname
    · simp [procInfoEntryLines, mkPluginInfo]
  refine ⟨hoff stale, ?_, ?_, ?_, ?_, ?_, ?_, rfl⟩
  · simp only [emitInfosHeader, List.mem_append]
    exact Or.inl (Or.inl (Or.inl (Or.inl (Or.inl (Or.inl (Or.inr
      (procInfoTablesSection_mem _ infos _ hinfo _ (hoff _))))))))
  · simp only [emitInfosHeader, List.mem_append, List.mem_flatten]
    refine Or.inl (Or.inr (Or.inl (Or.inr ?_)))
    refine ⟨procStructInfoEntryLines (mkPluginInfo lib procs watch),
      List.mem_map_of_mem _ hinfo, ?_⟩
    simp [procStructInfoEntryLines, mkPluginInfo]
  · simp only [emitInfosHeader, List.mem_append, List.mem_flatten]
    refine Or.inl (Or.inr (Or.inl (Or.inr ?_)))
    refine ⟨procStructInfoEntryLines (mkPluginInfo lib procs watch),
      List.mem_map_of_mem _ hinfo, ?_⟩
    simp [procStructInfoEntryLines, mkPluginInfo]
  · simp [emitPluginHeader]
  · simp [emitPluginHeader]
  · have : ∃ p ∈ procs, p.name = name := by
      simpa [mkPluginInfo] using hname
    rcases this with ⟨p, hp, hpname⟩
    simp only [emitPluginHeader, List.mem_append]
    refine Or.inl (Or.inl (Or.inl (Or.inr ?_)))
    rw [← hpname]
    exact List.mem_map_of_mem _ hp

/-- Witness for C1 at a one-procedure descriptor. -/
theorem c1_offsets_from_compiled_layout_witness :
    "step" ∈ (mkPluginInfo "fluid_sim" [⟨"void", "step", [⟨"float", some "dt"⟩]⟩]
        ["plugins_src/fluid_sim/sim.cpp"]).proc_names
    ∧ ("        .offset_in_procs_struct = offsetof(" ++ "fluid_sim" ++ "::" ++
        procsStructName "fluid_sim" ++ ", " ++ "step" ++ "),") ∈
        procInfoTableLines "zzz"
          (mkPluginInfo "fluid_sim" [⟨"void", "step", [⟨"float", some "dt"⟩]⟩]
            ["plugins_src/fluid_sim/sim.cpp"]) :=
  ⟨by decide,
   (c1_offsets_from_compiled_layout "fluid_sim" [⟨"void", "step", [⟨"float", some "dt"⟩]⟩]
     ["plugins_src/fluid_sim/sim.cpp"] "zzz" "step"
     [mkPluginInfo "fluid_sim" [⟨"void", "step", [⟨"float", some "dt"⟩]⟩]
       ["plugins_src/fluid_sim/sim.cpp"]]
     (by decide) (by simp)).1⟩

theorem structFieldLine_injective : Function.Injective structFieldLine := by
  intro a b h
  have hd := congrArg String.data h
  simp only [structFieldLine, String.data_append, List.append_assoc] at hd
  have hlen : a.data.length = b.data.length := by
    have := congrArg List.length hd
    simp only [List.length_append] at this
    omega
  have hd2 := List.append_cancel_left hd
  exact String.ext (List.append_inj hd2 hlen).1

/-- Amended C3: header generation never fails and performs no
duplicate-procedure-name validation; the generated call-table struct carries
exactly one `    FN_<name>* <name>;` field line per occurrence of the name in
the descriptor's procedure list (so a duplicated procedure name yields a
duplicated field, left for the C++ compiler to reject). -/
theorem c3_amended_no_duplicate_check (lib : String) (procs : List Procedure) (n : String) :
    (procs.map (fun p => structFieldLine p.name)).count (structFieldLine n) =
      (procs.map (fun p => p.name)).count n
    ∧ (∀ p ∈ procs, structFieldLine p.name ∈ emitPluginHeader lib procs)
    ∧ emitPluginHeader lib procs ≠ [] := by
  refine ⟨?_, ?_, by simp [emitPluginHeader]⟩
  · rw [show (fun p : Procedure => structFieldLine p.name) =
        structFieldLine ∘ (fun p : Procedure => p.name) from rfl,
      ← List.map_map, List.count_map_of_injective _ _ structFieldLine_injective]
  · intro p hp
    simp only [emitPluginHeader, List.mem_append]
    exact Or.inl (Or.inl (Or.inl (Or.inr (List.mem_map_of_mem _ hp))))

/-- Witness for the amended C3 at a duplicate-name descriptor. -/
theorem c3_amended_no_duplicate_check_witness :
    ((([⟨"void", "f", []⟩, ⟨"void", "f", []⟩] : List Procedure).map
        (fun p => structFieldLine p.name)).count (structFieldLine "f") =
      (([⟨"void", "f", []⟩, ⟨"void", "f", []⟩] : List Procedure).map
        (fun p => p.name)).count "f")
    ∧ structFieldLine "f" ∈
        emitPluginHeader "plug" [⟨"void", "f", []⟩, ⟨"void", "f", []⟩] :=
  ⟨(c3_amended_no_duplicate_check "plug" [⟨"void", "f", []⟩, ⟨"void", "f", []⟩] "f").1,
   (c3_amended_no_duplicate_check "plug" [⟨"void", "f", []⟩, ⟨"void", "f", []⟩] "f").2.1
     ⟨"void", "f", []⟩ (by decide)⟩

/-- Counterexample to C3 as stated: for a descriptor with two procedures both
named `f`, header generation succeeds (it has no failure path and emits a
nonempty header) and the emitted call-table struct contains the field line
`    FN_f* f;` twice — there is no generation-time ValidationError for
duplicate procedure names. -/
theorem c3_counterexample_duplicate_names_accepted :
    (emitPluginHeader "plug" [⟨"void", "f", []⟩, ⟨"void", "f", []⟩]).count
        (structFieldLine "f") = 2
    ∧ emitPluginHeader "plug" [⟨"void", "f", []⟩, ⟨"void", "f", []⟩] ≠ [] := by
  constructor
  · decide
  · decide

/-- A two-plugin generation input for exercising the registry emission:
`alpha` with two procedures and `beta` (last in sorted order) with one. -/
def c8infos : List PluginInfo :=
  [mkPluginInfo "alpha" [⟨"void", "fa", []⟩, ⟨"int", "ga", []⟩] ["plugins_src/alpha/a.cpp"],
   mkPluginInfo "beta" [⟨"void", "fb", []⟩] ["plugins_src/beta/b.cpp"]]

/-- Claim C8, evaluated at a two-plugin input: the registry emission
interpolates the stale module-level `lib_name` (the LAST sorted plugin,
`beta`) where the current plugin's name was intended. Concretely: the
`PROC_COUNT_BETA` constant is defined twice with conflicting values (2 for
`alpha`'s table, 1 for `beta`'s); no `PROC_COUNT_ALPHA` constant is ever
defined even though `alpha`'s `PluginReloadInfo` entry references it; and
both `PluginReloadInfo` entries record `.name = "beta"` — no entry records
`alpha`'s own name. The adjacent interpolations of `plugin_info.lib_name`
show per-plugin attribution was the intent; the generated header cannot even
compile with two or more plugins. -/
theorem c8_registry_misattributed_to_last_plugin :
    ("constexpr u32fast PROC_COUNT_BETA = 2;" ∈ emitInfosHeader c8infos
      ∧ "constexpr u32fast PROC_COUNT_BETA = 1;" ∈ emitInfosHeader c8infos)
    ∧ ((emitInfosHeader c8infos).filter
        (fun l => strStartsWith "constexpr u32fast PROC_COUNT_ALPHA" l)) = []
    ∧ "        .proc_count = PROC_COUNT_ALPHA," ∈ emitInfosHeader c8infos
    ∧ (emitInfosHeader c8infos).count "        .name = \"beta\"," = 2
    ∧ "        .name = \"alpha\"," ∉ emitInfosHeader c8infos := by
  refine ⟨⟨?_, ?_⟩, ?_, ?_, ?_, ?_⟩ <;> decide

/-- Claim C6: for both the per-plugin compile stage and the link stage, an
invocation whose plugin-subset argument contains at least one unknown name
exits nonzero before any compiler or linker subprocess is spawned, and the
error output names every unresolved plugin, not just the first. -/
theorem c6_unknown_plugins_all_reported_before_spawn :
    (∀ (env : Env) (inp : StageCInput) (script r0 : String) (rtail : List String),
      inp.argv = script :: r0 :: rtail →
      (∃ n ∈ r0 :: rtail, n ∉ getLibNames inp.plugins_src_listing) →
      (stageC env inp).exitMsg = some "Error: Not all requested plugins exist."
      ∧ (∀ cmd, Event.spawn cmd ∉ (stageC env inp).events)
      ∧ (∀ n ∈ r0 :: rtail, n ∉ getLibNames inp.plugins_src_listing →
          Event.print ("Error: No plugin named `" ++ n ++ "`.") ∈ (stageC env inp).events))
    ∧ (∀ (env : Env) (inp : StageDInput) (script a0 : String) (atail : List String)
        (pairs : List (String × Int)),
      inp.argv = script :: a0 :: atail →
      parseNameVersionPairs (a0 :: atail) = some pairs →
      (∃ n ∈ pairs.map (fun p => p.1), n ∉ getLibNames inp.plugins_src_listing) →
      (stageD env inp).exitMsg = some "Error: Not all requested plugins exist."
      ∧ (∀ cmd, Event.spawn cmd ∉ (stageD env inp).events)
      ∧ (∀ n ∈ pairs.map (fun p => p.1), n ∉ getLibNames inp.plugins_src_listing →
          Event.print ("Error: No plugin named `" ++ n ++ "`.") ∈ (stageD env inp).events)) := by
  constructor
  · intro env inp script r0 rtail harg hex
    obtain ⟨pf, listing, argv, psf, isf, cok⟩ := inp
    simp only at harg
    subst harg
    obtain ⟨n, hnmem, hnnot⟩ := hex
    simp only at hnnot
    have hfil : n ∈ (r0 :: rtail).filter
        (fun m => !((getLibNames listing).contains m)) :=
      List.mem_filter.mpr ⟨hnmem, by simp [hnnot]⟩
    have hie : ((r0 :: rtail).filter
        (fun m => !((getLibNames listing).contains m))).isEmpty = false := by
      rw [← Bool.not_eq_true, List.isEmpty_iff]
      exact List.ne_nil_of_mem hfil
    have hres : stageC env ⟨pf, listing, script :: r0 :: rtail, psf, isf, cok⟩ =
        ⟨Event.deleteTree "build/C_compilePluginSources" ::
          Event.mkdir "build/C_compilePluginSources" ::
          ((r0 :: rtail).filter (fun m => !((getLibNames listing).contains m))).map
            (fun m => Event.print ("Error: No plugin named `" ++ m ++ "`.")),
         [], some "Error: Not all requested plugins exist."⟩ := by
      simp only [stageC]
      rw [hie]
      simp
    refine ⟨?_, ?_, ?_⟩
    · rw [hres]
    · intro cmd
      rw [hres]
      simp
    · intro m hmmem hmnot
      simp only at hmnot
      have hfm : m ∈ (r0 :: rtail).filter
          (fun x => !((getLibNames listing).contains x)) :=
        List.mem_filter.mpr ⟨hmmem, by simp [hmnot]⟩
      rw [hres]
      exact List.mem_cons.mpr (Or.inr (List.mem_cons.mpr (Or.inr
        (List.mem_map_of_mem _ hfm))))
  · intro env inp script a0 atail pairs harg hparse hex
    obtain ⟨pf, listing, argv, ldC, ldB, isf, lok⟩ := inp
    simp only at harg
    subst harg
    obtain ⟨n, hnmem, hnnot⟩ := hex
    simp only at hnnot
    have hfil : n ∈ (pairs.map (fun p => p.1)).filter
        (fun m => !((getLibNames listing).contains m)) :=
      List.mem_filter.mpr ⟨hnmem, by simp [hnnot]⟩
    have hie : ((pairs.map (fun p => p.1)).filter
        (fun m => !((getLibNames listing).contains m))).isEmpty = false := by
      rw [← Bool.not_eq_true, List.isEmpty_iff]
      exact List.ne_nil_of_mem hfil
    have hres : stageD env ⟨pf, listing, script :: a0 :: atail, ldC, ldB, isf, lok⟩ =
        ⟨Event.deleteTree "build/D_linkPlugins_dependsOn_BC" ::
          Event.mkdir "build/D_linkPlugins_dependsOn_BC" ::
          ((pairs.map (fun p => p.1)).filter
            (fun m => !((getLibNames listing).contains m))).map
            (fun m => Event.print ("Error: No plugin named `" ++ m ++ "`.")),
         [], some "Error: Not all requested plugins exist."⟩ := by
      simp only [stageD, hparse]
      rw [hie]
      simp
    refine ⟨?_, ?_, ?_⟩
    · rw [hres]
    · intro cmd
      rw [hres]
      simp
    · intro m hmmem hmnot
      simp only at hmnot
      have hfm : m ∈ (pairs.map (fun p => p.1)).filter
          (fun x => !((getLibNames listing).contains x)) :=
        List.mem_filter.mpr ⟨hmmem, by simp [hmnot]⟩
      rw [hres]
      exact List.mem_cons.mpr (Or.inr (List.mem_cons.mpr (Or.inr
        (List.mem_map_of_mem _ hfm))))

/-- Witness for C6: a compile request naming `audio` (known), `ghost` and
`phantom` (unknown), and a link request naming `ghost 7`. -/
theorem c6_unknown_plugins_all_reported_before_spawn_witness :
    ((stageC ⟨none, none, none, none, none, none⟩
        ⟨[], [⟨"audio", true⟩], ["script", "audio", "ghost", "phantom"],
         fun _ => [], fun _ => true, fun _ => true⟩).exitMsg =
      some "Error: Not all requested plugins exist."
    ∧ Event.print "Error: No plugin named `ghost`." ∈
        (stageC ⟨none, none, none, none, none, none⟩
          ⟨[], [⟨"audio", true⟩], ["script", "audio", "ghost", "phantom"],
           fun _ => [], fun _ => true, fun _ => true⟩).events
    ∧ Event.print "Error: No plugin named `phantom`." ∈
        (stageC ⟨none, none, none, none, none, none⟩
          ⟨[], [⟨"audio", true⟩], ["script", "audio", "ghost", "phantom"],
           fun _ => [], fun _ => true, fun _ => true⟩).events)
    ∧ (stageD ⟨none, none, none, none, none, none⟩
        ⟨[], [⟨"audio", true⟩], ["script", "ghost", "7"],
         fun _ => [], [], fun _ => true, fun _ => true⟩).exitMsg =
      some "Error: Not all requested plugins exist." := by
  have hc := c6_unknown_plugins_all_reported_before_spawn.1
    ⟨none, none, none, none, none, none⟩
    ⟨[], [⟨"audio", true⟩], ["script", "audio", "ghost", "phantom"],
     fun _ => [], fun _ => true, fun _ => true⟩
    "script" "audio" ["ghost", "phantom"] rfl
    ⟨"ghost", by decide, by decide⟩
  have hd := c6_unknown_plugins_all_reported_before_spawn.2
    ⟨none, none, none, none, none, none⟩
    ⟨[], [⟨"audio", true⟩], ["script", "ghost", "7"],
     fun _ => [], [], fun _ => true, fun _ => true⟩
    "script" "ghost" ["7"] [("ghost", 7)] rfl (by decide)
    ⟨"ghost", by decide, by decide⟩
  exact ⟨⟨hc.1, hc.2.2 "ghost" (by decide) (by decide),
          hc.2.2 "phantom" (by decide) (by decide)⟩, hd.1⟩

theorem stageC_runSrcs_files_shape (env : Env) (isFile compileOk : String → Bool)
    (objdir : String) :
    ∀ (srcs : List String) (f : String),
      f ∈ (stageC_runSrcs env isFile compileOk objdir srcs).2.1 →
      ∃ s, f = objdir ++ "/" ++ strReplaceSlash s ++ ".o"
  | [], _, h => absurd h (List.not_mem_nil _)
  | src :: rest, f, h => by
    by_cases hf : isFile src
    · by_cases hc : compileOk src
      · simp only [stageC_runSrcs, hf, hc, if_true, List.mem_cons] at h
        rcases h with h | h
        · exact ⟨src, h⟩
        · exact stageC_runSrcs_files_shape env isFile compileOk objdir rest f h
      · simp only [stageC_runSrcs, hf, hc, if_true, Bool.false_eq_true, if_false] at h
        exact absurd h (List.not_mem_nil _)
    · simp only [stageC_runSrcs, hf, Bool.false_eq_true, if_false] at h
      exact absurd h (List.not_mem_nil _)

theorem stageC_runLibs_files_shape (env : Env) (isFile compileOk : String → Bool)
    (psf : String → List String) :
    ∀ (libs : List String) (f : String),
      f ∈ (stageC_runLibs env isFile compileOk psf libs).2.1 →
      ∃ lib ∈ libs, ∃ s,
        f = ("build/C_compilePluginSources/" ++ lib) ++ "/" ++ strReplaceSlash s ++ ".o"
  | [], _, h => absurd h (List.not_mem_nil _)
  | lib :: rest, f, h => by
    simp only [stageC_runLibs] at h
    rcases hrun : (stageC_runSrcs env isFile compileOk
        ("build/C_compilePluginSources/" ++ lib)
        ((psf lib).map (fun s => "plugins_src/" ++ lib ++ "/" ++ s))).2.2 with _ | m
    · rw [hrun] at h
      simp only [List.mem_append] at h
      rcases h with h | h
      · obtain ⟨s, hs⟩ := stageC_runSrcs_files_shape env isFile compileOk _ _ f h
        exact ⟨lib, List.mem_cons_self _ _, s, hs⟩
      · obtain ⟨l, hl, s, hs⟩ :=
          stageC_runLibs_files_shape env isFile compileOk psf rest f h
        exact ⟨l, List.mem_cons_of_mem _ hl, s, hs⟩
    · rw [hrun] at h
      obtain ⟨s, hs⟩ := stageC_runSrcs_files_shape env isFile compileOk _ _ f h
      exact ⟨lib, List.mem_cons_self _ _, s, hs⟩

theorem stageD_runLinks_files_shape (listdirC : String → List String)
    (listdirB : List String) (isFile linkOk : String → Bool) :
    ∀ (pairs : List (String × Int)) (f : String),
      f ∈ (stageD_runLinks listdirC listdirB isFile linkOk pairs).2.1 →
      ∃ p ∈ pairs, f = "build/D_linkPlugins_dependsOn_BC/" ++ (p.1 ++ ".so." ++ toString p.2)
  | [], _, h => absurd h (List.not_mem_nil _)
  | (lib, ver) :: rest, f, h => by
    by_cases hobj : (((listdirC lib).map
        (fun fname => "build/C_compilePluginSources/" ++ lib ++ "/" ++ fname)
        ++ listdirB.map
          (fun fname => "build/B_compileNonPluginSourcesForPlugins" ++ "/" ++ fname)).all
        (fun p => strEndsWith ".o" p && isFile p) = true)
    · by_cases hl : (linkOk
          ("build/D_linkPlugins_dependsOn_BC/" ++ (lib ++ ".so." ++ toString ver)) = true)
      · simp only [stageD_runLinks, hobj, hl, if_true, List.mem_cons] at h
        rcases h with h | h
        · exact ⟨(lib, ver), List.mem_cons_self _ _, h⟩
        · obtain ⟨p, hp, hf⟩ :=
            stageD_runLinks_files_shape listdirC listdirB isFile linkOk rest f h
          exact ⟨p, List.mem_cons_of_mem _ hp, hf⟩
      · simp only [stageD_runLinks, hobj, hl, if_true, Bool.false_eq_true, if_false] at h
        exact absurd h (List.not_mem_nil _)
    · simp only [stageD_runLinks, hobj, Bool.false_eq_true, if_false] at h
      exact absurd h (List.not_mem_nil _)

/-- Claim C10: both the per-plugin compile stage and the link stage delete
their whole stage output directory first, before parsing or validating the
requested subset (the wipe and recreation are the first two actions of every
invocation, whatever the arguments); the result never depends on what was in
the directory before; an invocation that fails the unknown-plugin check
leaves the directory empty (all prior outputs destroyed, nothing spawned);
and a subset invocation can leave behind only files generated for the
requested subset — every other plugin's previous outputs are gone. -/
theorem c10_stage_dirs_wiped_before_validation :
    (∀ (env : Env) (inp : StageCInput),
      (stageC env inp).events.take 2 = [Event.deleteTree "build/C_compilePluginSources",
        Event.mkdir "build/C_compilePluginSources"])
    ∧ (∀ (env : Env) (inp : StageDInput),
      (stageD env inp).events.take 2 = [Event.deleteTree "build/D_linkPlugins_dependsOn_BC",
        Event.mkdir "build/D_linkPlugins_dependsOn_BC"])
    ∧ (∀ (env : Env) (pf pf' : List String) (listing : List DirEntry) (argv : List String)
        (psf : String → List String) (isf cok : String → Bool),
      stageC env ⟨pf, listing, argv, psf, isf, cok⟩ =
        stageC env ⟨pf', listing, argv, psf, isf, cok⟩)
    ∧ (∀ (env : Env) (pf pf' : List String) (listing : List DirEntry) (argv : List String)
        (ldC : String → List String) (ldB : List String) (isf lok : String → Bool),
      stageD env ⟨pf, listing, argv, ldC, ldB, isf, lok⟩ =
        stageD env ⟨pf', listing, argv, ldC, ldB, isf, lok⟩)
    ∧ (∀ (env : Env) (inp : StageCInput) (script r0 : String) (rtail : List String),
      inp.argv = script :: r0 :: rtail →
      (∃ n ∈ r0 :: rtail, n ∉ getLibNames inp.plugins_src_listing) →
      (stageC env inp).files = [])
    ∧ (∀ (env : Env) (inp : StageDInput) (script a0 : String) (atail : List String)
        (pairs : List (String × Int)),
      inp.argv = script :: a0 :: atail →
      parseNameVersionPairs (a0 :: atail) = some pairs →
      (∃ n ∈ pairs.map (fun p => p.1), n ∉ getLibNames inp.plugins_src_listing) →
      (stageD env inp).files = [])
    ∧ (∀ (env : Env) (inp : StageCInput) (script r0 : String) (rtail : List String),
      inp.argv = script :: r0 :: rtail →
      ∀ f ∈ (stageC env inp).files, ∃ lib ∈ r0 :: rtail, ∃ s,
        f = "build/C_compilePluginSources/" ++ lib ++ "/" ++ strReplaceSlash s ++ ".o")
    ∧ (∀ (env : Env) (inp : StageDInput) (script a0 : String) (atail : List String)
        (pairs : List (String × Int)),
      inp.argv = script :: a0 :: atail →
      parseNameVersionPairs (a0 :: atail) = some pairs →
      ∀ f ∈ (stageD env inp).files, ∃ p ∈ pairs,
        f = "build/D_linkPlugins_dependsOn_BC/" ++ (p.1 ++ ".so." ++ toString p.2)) := by
  refine ⟨?_, ?_, ?_, ?_, ?_, ?_, ?_, ?_⟩
  · intro env inp
    obtain ⟨pf, listing, argv, psf, isf, cok⟩ := inp
    rcases argv with _ | ⟨s, args⟩
    · rfl
    · rcases args with _ | ⟨a, rest⟩
      · rfl
      · by_cases hc : (((a :: rest).filter
            (fun n => !((getLibNames listing).contains n))).isEmpty = true)
        · simp only [stageC, hc, if_true]
          rfl
        · simp only [stageC, hc, if_false]
          rfl
  · intro env inp
    obtain ⟨pf, listing, argv, ldC, ldB, isf, lok⟩ := inp
    rcases argv with _ | ⟨s, args⟩
    · rfl
    · rcases args with _ | ⟨a, rest⟩
      · rfl
      · rcases hp : parseNameVersionPairs (a :: rest) with _ | pairs
        · simp only [stageD, hp]
          rfl
        · by_cases hc : (((pairs.map (fun p => p.1)).filter
              (fun n => !((getLibNames listing).contains n))).isEmpty = true)
          · simp only [stageD, hp, hc, if_true]
            rfl
          · simp only [stageD, hp, hc, if_false]
            rfl
  · intro env pf pf' listing argv psf isf cok
    rfl
  · intro env pf pf' listing argv ldC ldB isf lok
    rfl
  · intro env inp script r0 rtail harg hex
    obtain ⟨pf, listing, argv, psf, isf, cok⟩ := inp
    simp only at harg
    subst harg
    obtain ⟨n, hnmem, hnnot⟩ := hex
    simp only at hnnot
    have hfil : n ∈ (r0 :: rtail).filter
        (fun m => !((getLibNames listing).contains m)) :=
      List.mem_filter.mpr ⟨hnmem, by simp [hnnot]⟩
    have hie : ((r0 :: rtail).filter
        (fun m => !((getLibNames listing).contains m))).isEmpty = false := by
      rw [← Bool.not_eq_true, List.isEmpty_iff]
      exact List.ne_nil_of_mem hfil
    simp only [stageC]
    rw [hie]
    simp
  · intro env inp script a0 atail pairs harg hparse hex
    obtain ⟨pf, listing, argv, ldC, ldB, isf, lok⟩ := inp
    simp only at harg
    subst harg
    obtain ⟨n, hnmem, hnnot⟩ := hex
    simp only at hnnot
    have hfil : n ∈ (pairs.map (fun p => p.1)).filter
        (fun m => !((getLibNames listing).contains m)) :=
      List.mem_filter.mpr ⟨hnmem, by simp [hnnot]⟩
    have hie : ((pairs.map (fun p => p.1)).filter
        (fun m => !((getLibNames listing).contains m))).isEmpty = false := by
      rw [← Bool.not_eq_true, List.isEmpty_iff]
      exact List.ne_nil_of_mem hfil
    simp only [stageD, hparse]
    rw [hie]
    simp
  · intro env inp script r0 rtail harg f hf
    obtain ⟨pf, listing, argv, psf, isf, cok⟩ := inp
    simp only at harg
    subst harg
    by_cases hc : (((r0 :: rtail).filter
        (fun n => !((getLibNames listing).contains n))).isEmpty = true)
    · simp only [stageC, hc, if_true] at hf
      exact stageC_runLibs_files_shape env isf cok psf (r0 :: rtail) f hf
    · simp only [stageC, hc, if_false] at hf
      exact absurd hf (List.not_mem_nil _)
  · intro env inp script a0 atail pairs harg hparse f hf
    obtain ⟨pf, listing, argv, ldC, ldB, isf, lok⟩ := inp
    simp only at harg
    subst harg
    by_cases hc : (((pairs.map (fun p => p.1)).filter
        (fun n => !((getLibNames listing).contains n))).isEmpty = true)
    · simp only [stageD, hparse, hc, if_true] at hf
      exact stageD_runLinks_files_shape ldC ldB isf lok pairs f hf
    · simp only [stageD, hparse, hc, if_false] at hf
      exact absurd hf (List.not_mem_nil _)

/-- Witness for C10: a link invocation naming the unknown plugin `ghost`
wipes the stage directory first and leaves it empty. -/
theorem c10_stage_dirs_wiped_before_validation_witness :
    ((stageD ⟨none, none, none, none, none, none⟩
        ⟨["build/D_linkPlugins_dependsOn_BC/p.so.0"], [⟨"p", true⟩],
         ["script", "ghost", "0"], fun _ => [], [], fun _ => true, fun _ => true⟩).events.take 2 =
      [Event.deleteTree "build/D_linkPlugins_dependsOn_BC",
       Event.mkdir "build/D_linkPlugins_dependsOn_BC"])
    ∧ (stageD ⟨none, none, none, none, none, none⟩
        ⟨["build/D_linkPlugins_dependsOn_BC/p.so.0"], [⟨"p", true⟩],
         ["script", "ghost", "0"], fun _ => [], [], fun _ => true, fun _ => true⟩).files = [] :=
  ⟨c10_stage_dirs_wiped_before_validation.2.1
     ⟨none, none, none, none, none, none⟩
     ⟨["build/D_linkPlugins_dependsOn_BC/p.so.0"], [⟨"p", true⟩],
      ["script", "ghost", "0"], fun _ => [], [], fun _ => true, fun _ => true⟩,
   c10_stage_dirs_wiped_before_validation.2.2.2.2.2.1
     ⟨none, none, none, none, none, none⟩
     ⟨["build/D_linkPlugins_dependsOn_BC/p.so.0"], [⟨"p", true⟩],
      ["script", "ghost", "0"], fun _ => [], [], fun _ => true, fun _ => true⟩
     "script" "ghost" ["0"] [("ghost", 0)] rfl (by decide)
     ⟨"ghost", by decide, by decide⟩⟩

/-- Claim C5, evaluated at its own scenario: link plugin `p` with version 0,
then invoke the link stage again for `p` with version 1. The first run
produces `p.so.0`; the second run's first action deletes the whole stage
directory (including `p.so.0`, handed to it as `prior_files`), and afterwards
only `p.so.1` exists — `p.so.0` is gone, although it was not about to be
regenerated. The script's own `TODO FIXME` comment (lines 13-14) records this
as a defect, matching the spec's stated constraint. -/
theorem c5_relink_destroys_previous_version :
    (stageD ⟨none, none, none, none, none, none⟩
        ⟨[], [⟨"p", true⟩], ["script", "p", "0"],
         fun _ => ["a.o"], [], fun _ => true, fun _ => true⟩).files =
      ["build/D_linkPlugins_dependsOn_BC/p.so.0"]
    ∧ (stageD ⟨none, none, none, none, none, none⟩
        ⟨["build/D_linkPlugins_dependsOn_BC/p.so.0"], [⟨"p", true⟩], ["script", "p", "1"],
         fun _ => ["a.o"], [], fun _ => true, fun _ => true⟩).files =
      ["build/D_linkPlugins_dependsOn_BC/p.so.1"]
    ∧ "build/D_linkPlugins_dependsOn_BC/p.so.0" ∉
        (stageD ⟨none, none, none, none, none, none⟩
          ⟨["build/D_linkPlugins_dependsOn_BC/p.so.0"], [⟨"p", true⟩], ["script", "p", "1"],
           fun _ => ["a.o"], [], fun _ => true, fun _ => true⟩).files
    ∧ (stageD ⟨none, none, none, none, none, none⟩
        ⟨["build/D_linkPlugins_dependsOn_BC/p.so.0"], [⟨"p", true⟩], ["script", "p", "1"],
         fun _ => ["a.o"], [], fun _ => true, fun _ => true⟩).events.take 1 =
      [Event.deleteTree "build/D_linkPlugins_dependsOn_BC"] := by
  refine ⟨?_, ?_, ?_, ?_⟩ <;> decide

/-- Counterexample to C9 as stated: link plugin `p` with the default version
(an argument-less link-stage invocation links every plugin with version 0).
The only artifact produced is `build/D_linkPlugins_dependsOn_BC/p.so.0`,
while the registry entry generated for `p` records the path
`build/D_linkPlugins_dependsOn_BC/p.so` — no file exists at the path the
registry hands to the host. -/
theorem c9_counterexample_registry_path_not_produced :
    (stageD ⟨none, none, none, none, none, none⟩
        ⟨[], [⟨"p", true⟩], ["script"],
         fun _ => ["a.o"], [], fun _ => true, fun _ => true⟩).files =
      ["build/D_linkPlugins_dependsOn_BC/p.so.0"]
    ∧ (mkPluginInfo "p" [] []).shared_object_path = "build/D_linkPlugins_dependsOn_BC/p.so"
    ∧ (mkPluginInfo "p" [] []).shared_object_path ∉
        (stageD ⟨none, none, none, none, none, none⟩
          ⟨[], [⟨"p", true⟩], ["script"],
           fun _ => ["a.o"], [], fun _ => true, fun _ => true⟩).files := by
  refine ⟨?_, ?_, ?_⟩ <;> decide

/-- Amended C9: the registry records the versionless path template
`build/D_linkPlugins_dependsOn_BC/<name>.so`; the link stage produces
`build/D_linkPlugins_dependsOn_BC/<name>.so.<version>`, which is exactly the
registry path with `.<version>` appended (so the registry hands the host a
template from which each versioned artifact's path is derived), and no file
is created at the bare registry path itself. -/
theorem c9_amended_registry_path_is_version_template (lib : String)
    (procs : List Procedure) (watch : List String) (ver : Int) :
    "build/D_linkPlugins_dependsOn_BC/" ++ (lib ++ ".so." ++ toString ver) =
      (mkPluginInfo lib procs watch).shared_object_path ++ "." ++ toString ver
    ∧ (mkPluginInfo lib procs watch).shared_object_path =
        "build/D_linkPlugins_dependsOn_BC/" ++ lib ++ ".so" := by
  constructor
  · apply String.ext
    have hso : (".so." : String).data = (".so" : String).data ++ ('.' : Char) :: [] := by
      decide
    have hdot : ("." : String).data = [('.' : Char)] := by decide
    simp [mkPluginInfo, String.data_append, List.append_assoc, hso, hdot]
  · rfl

/-- Witness for the amended C9 at plugin `p`, version 1. -/
theorem c9_amended_registry_path_is_version_template_witness :
    "build/D_linkPlugins_dependsOn_BC/" ++ ("p" ++ ".so." ++ toString (1 : Int)) =
      (mkPluginInfo "p" [] []).shared_object_path ++ "." ++ toString (1 : Int) :=
  (c9_amended_registry_path_is_version_template "p" [] [] 1).1

theorem stageB_spawns_all_files_exist (env : Env) (isFile : String → Bool) :
    ∀ (srcs : List String), (∀ s ∈ srcs, isFile s = true) →
      stageB_spawns env isFile srcs =
        (srcs.map (fun s => Event.spawn (stageB_compileCommand env s)), srcs, none)
  | [], _ => rfl
  | src :: rest, hall => by
    have hsrc : isFile src = true := hall src (List.mem_cons_self _ _)
    have hrest := stageB_spawns_all_files_exist env isFile rest
      (fun s hs => hall s (List.mem_cons_of_mem _ hs))
    simp [stageB_spawns, hsrc, hrest]

theorem stageC_runSrcs_first_failure (env : Env) (isFile compileOk : String → Bool)
    (objdir : String) :
    ∀ (srcs : List String), (∀ s ∈ srcs, isFile s = true) →
      (∃ s ∈ srcs, compileOk s = false) →
      (stageC_runSrcs env isFile compileOk objdir srcs).2.2 =
        some ("Error: Failed to compile file `" ++
          (srcs.dropWhile compileOk).headI ++ "`.")
      ∧ (stageC_runSrcs env isFile compileOk objdir srcs).1 =
        (srcs.takeWhile compileOk ++ [(srcs.dropWhile compileOk).headI]).map
          (fun s => Event.spawn (stageC_compileCommand env objdir s))
  | [], _, hex => absurd hex (by simp)
  | src :: rest, hall, hex => by
    have hsrc : isFile src = true := hall src (List.mem_cons_self _ _)
    by_cases hok : compileOk src = true
    · have hex2 : ∃ s ∈ rest, compileOk s = false := by
        rcases hex with ⟨s, hs, hsf⟩
        rcases List.mem_cons.mp hs with rfl | hs
        · rw [hok] at hsf
          exact absurd hsf (by simp)
        · exact ⟨s, hs, hsf⟩
      have ih := stageC_runSrcs_first_failure env isFile compileOk objdir rest
        (fun s hs => hall s (List.mem_cons_of_mem _ hs)) hex2
      simp [stageC_runSrcs, hsrc, hok, List.takeWhile_cons, List.dropWhile_cons,
        ih.1, ih.2]
    · have hok' : compileOk src = false := by
        rcases h : compileOk src with _ | _
        · rfl
        · exact absurd h hok
      simp [stageC_runSrcs, hsrc, hok', List.takeWhile_cons, List.dropWhile_cons]

/-- Amended C4: the two compile stages handle multiple failures differently.
The shared-sources stage (`B_compileNonPluginSourcesForPlugins.py`) spawns
every translation unit's compile before checking any result and waits for all
of them (collect-then-report): even when several units fail, every unit is
spawned, and the stage reports failure — with the single aggregate message
`A compilation failed; aborting build.`, which names no unit — only after the
full spawn list; its own report does not enumerate the failing set (each
failing compiler's own diagnostics are what make the broken units visible).
The per-plugin stage (`C_compilePluginSources.py`) compiles sequentially and
exits at the FIRST failing unit, spawning no later unit and naming only that
first unit. -/
theorem c4_amended_failure_collection_per_stage :
    (∀ (env : Env) (inp : StageBInput),
      (∀ s ∈ ((getLibNames inp.plugins_src_listing).map inp.other_source_files).flatten,
        inp.isFile s = true) →
      (stageB env inp).events =
        [Event.deleteTree "build/B_compileNonPluginSourcesForPlugins",
         Event.mkdir "build/B_compileNonPluginSourcesForPlugins"]
        ++ (((getLibNames inp.plugins_src_listing).map inp.other_source_files).flatten).map
            (fun s => Event.spawn (stageB_compileCommand env s))
        ++ (if (((getLibNames inp.plugins_src_listing).map
              inp.other_source_files).flatten).all inp.compileOk then []
            else [Event.print "A compilation failed; aborting build."])
      ∧ ((stageB env inp).exitMsg = none ↔
          (((getLibNames inp.plugins_src_listing).map
            inp.other_source_files).flatten).all inp.compileOk = true))
    ∧ (∀ (env : Env) (isFile compileOk : String → Bool) (objdir : String)
        (srcs : List String),
      (∀ s ∈ srcs, isFile s = true) → (∃ s ∈ srcs, compileOk s = false) →
      (stageC_runSrcs env isFile compileOk objdir srcs).2.2 =
        some ("Error: Failed to compile file `" ++
          (srcs.dropWhile compileOk).headI ++ "`.")
      ∧ (stageC_runSrcs env isFile compileOk objdir srcs).1 =
        (srcs.takeWhile compileOk ++ [(srcs.dropWhile compileOk).headI]).map
          (fun s => Event.spawn (stageC_compileCommand env objdir s))) := by
  constructor
  · intro env inp hall
    obtain ⟨pf, listing, osf, isf, cok⟩ := inp
    simp only at hall
    have hsp := stageB_spawns_all_files_exist env isf
      (((getLibNames listing).map osf).flatten) hall
    by_cases hallok : ((((getLibNames listing).map osf).flatten).all cok = true)
    · constructor
      · simp [stageB, hsp, hallok]
      · simp [stageB, hsp, hallok]
    · have hfalse : ((((getLibNames listing).map osf).flatten).all cok = false) := by
        rcases h : (((getLibNames listing).map osf).flatten).all cok with _ | _
        · rfl
        · exact absurd h hallok
      constructor
      · simp [stageB, hsp, hfalse]
      · simp [stageB, hsp, hfalse]
  · intro env isFile compileOk objdir srcs hall hex
    exact stageC_runSrcs_first_failure env isFile compileOk objdir srcs hall hex

/-- Witness for the amended C4: a shared-sources pool of three units with two
failures spawns all three and reports the aggregate message; a per-plugin
source list with a failure at its second unit spawns only the first two. -/
theorem c4_amended_failure_collection_per_stage_witness :
    ((∀ s ∈ ((getLibNames ([⟨"p", true⟩] : List DirEntry)).map
        (fun _ => ["u1", "u2", "u3"])).flatten, (fun _ => true : String → Bool) s = true)
      ∧ (stageB ⟨none, none, none, none, none, none⟩
          ⟨[], [⟨"p", true⟩], fun _ => ["u1", "u2", "u3"], fun _ => true,
           fun s => s == "u2"⟩).exitMsg ≠ none)
    ∧ (stageC_runSrcs ⟨none, none, none, none, none, none⟩ (fun _ => true)
        (fun s => !(s == "b")) "obj" ["a", "b", "c"]).2.2 =
      some ("Error: Failed to compile file `" ++
        ((["a", "b", "c"] : List String).dropWhile (fun s => !(s == "b"))).headI ++ "`.") := by
  refine ⟨⟨by decide, ?_⟩, ?_⟩
  · have h := (c4_amended_failure_collection_per_stage.1
      ⟨none, none, none, none, none, none⟩
      ⟨[], [⟨"p", true⟩], fun _ => ["u1", "u2", "u3"], fun _ => true,
       fun s => s == "u2"⟩ (by decide)).2
    intro hnone
    have : ((((getLibNames ([⟨"p", true⟩] : List DirEntry)).map
        (fun _ => ["u1", "u2", "u3"])).flatten).all (fun s => s == "u2") = true) := h.mp hnone
    exact absurd this (by decide)
  · exact (c4_amended_failure_collection_per_stage.2
      ⟨none, none, none, none, none, none⟩ (fun _ => true) (fun s => !(s == "b"))
      "obj" ["a", "b", "c"] (by decide) ⟨"b", by decide, by decide⟩).1

/-- Counterexample to C4 as stated, at the spec's own example scaled to the
per-plugin compile stage: ten translation units of plugin `p`, of which units
3, 6 and 9 fail. The stage exits naming ONLY unit 3, and units 4..10 — the
other failing units included — are never even spawned, so the failure report
is not the set {3, 6, 9}. -/
theorem c4_counterexample_first_failure_only :
    (stageC ⟨none, none, none, none, none, none⟩
        ⟨[], [⟨"p", true⟩], ["script", "p"],
         fun _ => ["u01", "u02", "u03", "u04", "u05", "u06", "u07", "u08", "u09", "u10"],
         fun _ => true,
         fun s => !(s == "plugins_src/p/u03" || s == "plugins_src/p/u06" ||
                    s == "plugins_src/p/u09")⟩).exitMsg =
      some "Error: Failed to compile file `plugins_src/p/u03`."
    ∧ Event.spawn (stageC_compileCommand ⟨none, none, none, none, none, none⟩
        "build/C_compilePluginSources/p" "plugins_src/p/u06") ∉
      (stageC ⟨none, none, none, none, none, none⟩
        ⟨[], [⟨"p", true⟩], ["script", "p"],
         fun _ => ["u01", "u02", "u03", "u04", "u05", "u06", "u07", "u08", "u09", "u10"],
         fun _ => true,
         fun s => !(s == "plugins_src/p/u03" || s == "plugins_src/p/u06" ||
                    s == "plugins_src/p/u09")⟩).events
    ∧ Event.spawn (stageC_compileCommand ⟨none, none, none, none, none, none⟩
        "build/C_compilePluginSources/p" "plugins_src/p/u09") ∉
      (stageC ⟨none, none, none, none, none, none⟩
        ⟨[], [⟨"p", true⟩], ["script", "p"],
         fun _ => ["u01", "u02", "u03", "u04", "u05", "u06", "u07", "u08", "u09", "u10"],
         fun _ => true,
         fun s => !(s == "plugins_src/p/u03" || s == "plugins_src/p/u06" ||
                    s == "plugins_src/p/u09")⟩).events := by
  refine ⟨?_, ?_, ?_⟩ <;> decide

theorem findSubstrPos_sound (needle : List Char) :
    ∀ (hay : List Char) (i : Nat), findSubstrPos needle hay = some i →
      needle.isPrefixOf (hay.drop i) = true
      ∧ ∀ j < i, needle.isPrefixOf (hay.drop j) = false
  | [], i, h => by
    by_cases hne : needle.isEmpty = true
    · simp only [findSubstrPos, hne, if_true, Option.some.injEq] at h
      subst h
      rw [List.isEmpty_iff] at hne
      subst hne
      exact ⟨rfl, fun j hj => absurd hj (Nat.not_lt_zero j)⟩
    · simp [findSubstrPos, hne] at h
  | c :: rest, i, h => by
    by_cases hpre : needle.isPrefixOf (c :: rest) = true
    · simp only [findSubstrPos, hpre, if_true, Option.some.injEq] at h
      subst h
      exact ⟨hpre, fun j hj => absurd hj (Nat.not_lt_zero j)⟩
    · simp only [findSubstrPos, hpre, Bool.false_eq_true, if_false, Option.map_eq_some'] at h
      obtain ⟨i', hi', rfl⟩ := h
      obtain ⟨hat, hbefore⟩ := findSubstrPos_sound needle rest i' hi'
      refine ⟨hat, ?_⟩
      intro j hj
      rcases j with _ | j'
      · simp only [List.drop_zero, ← Bool.not_eq_true]
        exact hpre
      · exact hbefore j' (Nat.lt_of_succ_lt_succ hj)

theorem nocompileScan_sound (src_listing : List SrcFile) (fl : FileAndLocation)
    (hmem : fl ∈ nocompileScan src_listing) :
    ∃ file ∈ src_listing, fl.filename = file.name
      ∧ ∃ hline : fl.line < file.lines.length,
        occursAt "@nocompile" (file.lines.get ⟨fl.line, hline⟩) fl.col
        ∧ ∀ j < fl.col, ¬ occursAt "@nocompile" (file.lines.get ⟨fl.line, hline⟩) j := by
  simp only [nocompileScan, List.mem_flatten, List.mem_map] at hmem
  obtain ⟨group, ⟨file, hfile, rfl⟩, hin⟩ := hmem
  simp only [List.mem_filterMap] at hin
  obtain ⟨⟨idx, line⟩, henum, hfind⟩ := hin
  simp only [Option.map_eq_some'] at hfind
  obtain ⟨col, hcol, rfl⟩ := hfind
  have hget := List.mem_enum_iff_getElem?.mp henum
  rw [List.getElem?_eq_some_iff] at hget
  obtain ⟨hlt, hline_eq⟩ := hget
  obtain ⟨hat, hbefore⟩ := findSubstrPos_sound ("@nocompile" : String).data line.data col hcol
  refine ⟨file, hfile, rfl, hlt, ?_, ?_⟩
  · show occursAt "@nocompile" (file.lines.get ⟨idx, hlt⟩) col
    rw [show file.lines.get ⟨idx, hlt⟩ = line from hline_eq]
    exact hat
  · intro j hj
    show ¬ occursAt "@nocompile" (file.lines.get ⟨idx, hlt⟩) j
    rw [show file.lines.get ⟨idx, hlt⟩ = line from hline_eq]
    simp only [occursAt]
    rw [hbefore j hj]
    simp

/-- Amended C7: when any top-level file of the `src/` directory contains the
do-not-build marker `@nocompile`, both `build.py` and the main-program
compile stage abort with exit status 1, printing the full report — one
`(file, line, column)` entry per marked LINE, giving that line's first marker
occurrence (a second occurrence on the same line is not listed) — and every
reported occurrence really is the first occurrence of the marker in its line.
The only subprocess spawned before the abort is the initial `pkg-config`
flag query; no compiler, shader or linker subprocess is launched. There is no
override switch: the scan's outcome depends only on the file contents, and a
found marker always aborts the build. -/
theorem c7_amended_marker_scan_aborts_build (inp : BuildInput)
    (hstderr : inp.pkg_config_stderr = "")
    (hfound : nocompileScan inp.src_listing ≠ []) :
    buildPy inp =
      ([Event.spawn ["pkg-config", "--static", "--libs", "glfw3"]] ++
        (nocompileReportLines (nocompileScan inp.src_listing)).map Event.print, some "1")
    ∧ stageE inp =
      ([Event.spawn ["pkg-config", "--static", "--libs", "glfw3"]] ++
        (nocompileReportLines (nocompileScan inp.src_listing)).map Event.print, some "1")
    ∧ (∀ cmd, Event.spawn cmd ∈ (buildPy inp).1 →
        cmd = ["pkg-config", "--static", "--libs", "glfw3"])
    ∧ (∀ fl ∈ nocompileScan inp.src_listing,
        ("    - " ++ fl.filename ++ ":" ++ toString fl.line ++ ":" ++ toString fl.col) ∈
          nocompileReportLines (nocompileScan inp.src_listing)
        ∧ ∃ file ∈ inp.src_listing, fl.filename = file.name
          ∧ ∃ hline : fl.line < file.lines.length,
            occursAt "@nocompile" (file.lines.get ⟨fl.line, hline⟩) fl.col
            ∧ ∀ j < fl.col, ¬ occursAt "@nocompile" (file.lines.get ⟨fl.line, hline⟩) j) := by
  have hie : (nocompileScan inp.src_listing).isEmpty = false := by
    rw [← Bool.not_eq_true, List.isEmpty_iff]
    exact hfound
  have hb : buildPy inp =
      ([Event.spawn ["pkg-config", "--static", "--libs", "glfw3"]] ++
        (nocompileReportLines (nocompileScan inp.src_listing)).map Event.print, some "1") := by
    simp [buildPy, hstderr, hie]
  refine ⟨hb, ?_, ?_, ?_⟩
  · simp [stageE, hstderr, hie]
  · intro cmd hc
    rw [hb] at hc
    simp only [List.mem_append, List.mem_singleton, List.mem_map] at hc
    rcases hc with hc | hc
    · injection hc
    · obtain ⟨line, _, hline⟩ := hc
      exact absurd hline (by simp)
  · intro fl hfl
    refine ⟨?_, nocompileScan_sound inp.src_listing fl hfl⟩
    simp only [nocompileReportLines, List.mem_append, List.mem_cons, List.mem_map]
    exact Or.inl (Or.inr ⟨fl, hfl, rfl⟩)

/-- Witness for the amended C7: one `src/` file whose first line holds the
marker at column 3. -/
theorem c7_amended_marker_scan_aborts_build_witness :
    ("" : String) = ""
    ∧ nocompileScan [⟨"a.cpp", ["  |@nocompile here"]⟩] ≠ []
    ∧ buildPy ⟨⟨none, none, none, none, none, none⟩, "", [],
        [⟨"a.cpp", ["  |@nocompile here"]⟩], [], [], [], [], fun _ => true⟩ =
      ([Event.spawn ["pkg-config", "--static", "--libs", "glfw3"]] ++
        (nocompileReportLines
          (nocompileScan [⟨"a.cpp", ["  |@nocompile here"]⟩])).map Event.print, some "1") :=
  ⟨rfl, by decide,
   (c7_amended_marker_scan_aborts_build
     ⟨⟨none, none, none, none, none, none⟩, "", [],
      [⟨"a.cpp", ["  |@nocompile here"]⟩], [], [], [], [], fun _ => true⟩
     rfl (by decide)).1⟩

/-- Counterexample to C7 as stated: with one `src/` file whose single line
contains the marker TWICE (columns 0 and 11), the pipeline's report lists
only the first occurrence per line — `a.cpp:0:0`, never `a.cpp:0:11` — and a
subprocess (the `pkg-config` query) has already been spawned before the
abort; moreover the code reads no override switch that could let the
pipeline proceed. -/
theorem c7_counterexample_not_every_occurrence_and_spawn_first :
    buildPy ⟨⟨none, none, none, none, none, none⟩, "", [],
        [⟨"a.cpp", ["@nocompile @nocompile"]⟩], [], [], [], [], fun _ => true⟩ =
      ([Event.spawn ["pkg-config", "--static", "--libs", "glfw3"],
        Event.print "Error: the following source files contain \"@nocompile\":",
        Event.print "    - a.cpp:0:0",
        Event.print "Aborting build due to \"@nocompile\"."], some "1")
    ∧ Event.print "    - a.cpp:0:11" ∉
        (buildPy ⟨⟨none, none, none, none, none, none⟩, "", [],
          [⟨"a.cpp", ["@nocompile @nocompile"]⟩], [], [], [], [], fun _ => true⟩).1
    ∧ (∃ cmd, Event.spawn cmd ∈
        (buildPy ⟨⟨none, none, none, none, none, none⟩, "", [],
          [⟨"a.cpp", ["@nocompile @nocompile"]⟩], [], [], [], [], fun _ => true⟩).1) := by
  refine ⟨?_, ?_, ⟨["pkg-config", "--static", "--libs", "glfw3"], ?_⟩⟩ <;> decide

end ParticleSim
